import Mathlib

/-!
# Noteplus: the application shell (`src/main.cpp`, `src/gui/gui.cpp`)

A shallow embedding of the three lifecycle functions `init_gui`, `render_gui`
and `cleanup_gui`, of the resize callback `framebuffer_size_callback` and of
`main`.

* The file-level statics of `gui.cpp` are the fields of `App`.
* Every call into GLFW, OpenGL, Dear ImGui or the standard streams is recorded,
  in program order, as a `Call`; a function of the program is an `Exec`
  computation that returns its result, the new statics and the calls it made.
* What the libraries answer (does `glfwInit` succeed, which button reports a
  click, which callbacks `glfwPollEvents` dispatches, what
  `glfwGetFramebufferSize` reports) is not decided by the program: it is an
  input (`InitEnv`, `FrameInput`).
-/

namespace Noteplus

/-! ## Values passed to the libraries -/

/-- A `float` value handed to ImGui or OpenGL: either a float whose value is
the integer `n`, or a constant kept symbolically (`-FLT_MIN`, `0.45f`). -/
inductive F32 where
  | ofInt (n : Int)
  | sym (s : String)
  deriving DecidableEq, Repr

/-- The `ImVec2` of ImGui. -/
structure ImVec2 where
  x : F32
  y : F32
  deriving DecidableEq, Repr

/-- Largest magnitude up to which every `int` is a `float`: `2^24`. -/
def floatExactBound : Nat := 16777216

/-- Number of binary digits of `n`, for `n` below `2 ^ fuel`. -/
def bitLength : Nat → Nat → Nat
  | 0, _ => 0
  | fuel + 1, n => if n = 0 then 0 else bitLength fuel (n / 2) + 1

/-- Value of `(float)n` for an `int` n (IEEE binary32, round to nearest, ties
to even): integers of magnitude at most `2^24` are floats and are kept; a
larger one has more than 24 binary digits, and the `e` digits in excess are
rounded away. -/
def castFloat (n : Int) : Int :=
  let m := n.natAbs
  if m ≤ floatExactBound then n
  else
    let e := bitLength 64 m - 24
    let q := m / 2 ^ e
    let r := m % 2 ^ e
    let half := 2 ^ (e - 1)
    let q1 := if half < r ∨ (r = half ∧ q % 2 = 1) then q + 1 else q
    (if n < 0 then -1 else 1) * ((q1 * 2 ^ e : Nat) : Int)

/-- Smallest `int`. -/
def INT_MIN : Int := -2147483648

/-- Largest `int`. -/
def INT_MAX : Int := 2147483647

/-- Result of an `int` operation whose mathematical value is `n`, on a
two's-complement 32-bit machine. -/
def wrapInt32 (n : Int) : Int := (n + 2147483648) % 4294967296 - 2147483648

/-- A callback that GLFW dispatches while `glfwPollEvents` runs. -/
inductive GlfwEvent where
  /-- the framebuffer size callback registered by `init_gui` is invoked -/
  | framebufferSize (width height : Int)
  /-- the user or the OS asked to close the window: GLFW sets the close flag -/
  | closeRequested
  deriving DecidableEq, Repr

/-- One call into GLFW, OpenGL, Dear ImGui or the standard streams, with its
arguments and, for the calls whose result the program reads, the result. -/
inductive Call where
  | glfwInit (result : Bool)
  | cerr (msg : String)
  | cout (msg : String)
  | glfwWindowHint (hint value : String)
  | glfwCreateWindow (width height : Int) (title : String) (result : Option Nat)
  | glfwTerminate
  | glfwMakeContextCurrent (window : Option Nat)
  | glfwSwapInterval (interval : Int)
  | glfwSetFramebufferSizeCallback (window : Option Nat)
  | IMGUI_CHECKVERSION
  | ImGui_CreateContext
  | ImGui_GetIO_ref
  | ImGui_StyleColorsDark
  | ImGui_ImplGlfw_InitForOpenGL (window : Option Nat) (install_callbacks : Bool)
  | ImGui_ImplOpenGL3_Init (glsl_version : String)
  | glfwWindowShouldClose (window : Option Nat) (result : Bool)
  | glfwSetWindowShouldClose (window : Option Nat) (value : Bool)
  | glfwPollEvents
  | glViewport (x y width height : Int)
  | ImGui_ImplOpenGL3_NewFrame
  | ImGui_ImplGlfw_NewFrame
  | ImGui_NewFrame
  | SetNextWindowPos (pos : ImVec2)
  | SetNextWindowSize (size : ImVec2)
  | Begin (name : String) (flags : List String)
  | End
  | BeginTabBar (id : String) (flags : List String) (result : Bool)
  | EndTabBar
  | BeginTabItem (label : String) (result : Bool)
  | EndTabItem
  | Spacing
  | SameLine
  | Separator
  | Text (text : String)
  | Button (label : String) (size : Option ImVec2) (result : Bool)
  | Columns (count : Nat) (id : Option String) (border : Bool)
  | SetColumnWidth (column : Nat) (width : F32)
  | NextColumn
  | BeginChild (id : String) (size : ImVec2) (border : Bool)
  | EndChild
  | ImGui_Render
  | glfwGetFramebufferSize (window : Option Nat) (width height : Int)
  | glClearColor (r g b a : F32)
  | glClear (mask : String)
  | ImGui_GetDrawData
  | ImGui_ImplOpenGL3_RenderDrawData
  | glfwSwapBuffers (window : Option Nat)
  | ImGui_ImplOpenGL3_Shutdown
  | ImGui_ImplGlfw_Shutdown
  | ImGui_DestroyContext
  | glfwDestroyWindow (window : Option Nat)

/-! ## The statics of `gui.cpp` -/

/-- The statics of `gui.cpp`, and the close flag that GLFW keeps for the
window. -/
structure App where
  /-- The `static GLFWwindow* window`; `none` is `nullptr` -/
  window : Option Nat
  /-- The `static int windowWidth` -/
  windowWidth : Int
  /-- The `static int windowHeight` -/
  windowHeight : Int
  /-- The `static bool showSidebar` -/
  showSidebar : Bool
  /-- The `static bool sidebarExpanded` -/
  sidebarExpanded : Bool
  /-- the close flag of the window, read by `glfwWindowShouldClose` and
  written by `glfwSetWindowShouldClose` and by GLFW itself -/
  shouldClose : Bool
  deriving DecidableEq, Repr

/-- The statics as the program starts: `window = nullptr`, `1280 x 720`, both
sidebar flags `true`. -/
def App.initial : App :=
  { window := none, windowWidth := 1280, windowHeight := 720,
    showSidebar := true, sidebarExpanded := true, shouldClose := false }

/-- The `static float sidebarWidth = 250.0f` (never written). -/
def sidebarWidth : F32 := F32.ofInt 250

/-- The `static float slimSidebarWidth = 60.0f` (never written). -/
def slimSidebarWidth : F32 := F32.ofInt 60

/-- The constant `-FLT_MIN`. -/
def negFltMin : F32 := F32.sym "-FLT_MIN"

/-! ## Computations -/

/-- What a computation leaves behind: its result, the statics, and the calls
it made, oldest first. -/
structure Outcome (α : Type) where
  result : α
  state : App
  trace : List Call

/-- A computation over the statics that records its calls. -/
@[reducible] def Exec (α : Type) : Type := App → Outcome α

/-- Return a value, touching nothing. -/
def Exec.pure {α : Type} (a : α) : Exec α := fun s => ⟨a, s, []⟩

/-- Run `m`, then `f` on its result; the calls of `m` come first. -/
def Exec.bind {α β : Type} (m : Exec α) (f : α → Exec β) : Exec β := fun s =>
  let r := m s
  let q := f r.result r.state
  ⟨q.result, q.state, r.trace ++ q.trace⟩

instance : Monad Exec where
  pure := Exec.pure
  bind := Exec.bind

/-- Record one call. -/
def call (c : Call) : Exec Unit := fun s => ⟨(), s, [c]⟩

/-- Read the statics. -/
def getApp : Exec App := fun s => ⟨s, s, []⟩

/-- Write the statics. -/
def modifyApp (f : App → App) : Exec Unit := fun s => ⟨(), f s, []⟩

/-! ## `framebuffer_size_callback` (gui.cpp 34-38) -/

/-- Resize callback: stores the new size and resets the GL viewport. -/
def framebuffer_size_callback (width height : Int) : Exec Unit := do
  modifyApp fun s => { s with windowWidth := width }
  modifyApp fun s => { s with windowHeight := height }
  call (.glViewport 0 0 width height)

/-! ## The library functions whose effect the program depends on -/

/-- What the windowing library answers during `init_gui`. -/
structure InitEnv where
  /-- result of `glfwInit()` -/
  glfwInit : Bool
  /-- result of `glfwCreateWindow(...)`, should it be called; `none` is NULL -/
  glfwCreateWindow : Option Nat

/-- What the libraries answer during one call of `render_gui`. -/
structure FrameInput where
  /-- the callbacks that `glfwPollEvents` dispatches, in order -/
  events : List GlfwEvent
  /-- result of `ImGui::BeginTabBar(id, ...)`, should it be called -/
  beginTabBar : String → Bool
  /-- result of `ImGui::BeginTabItem(label)`, should it be called -/
  beginTabItem : String → Bool
  /-- result of `ImGui::Button(label, ...)`, should it be called: was the
  button with this label activated in this frame -/
  button : String → Bool
  /-- the size that `glfwGetFramebufferSize` reports -/
  framebufferSize : Int × Int

/-- GLFW: `glfwInit()`. -/
def glfwInit (answer : Bool) : Exec Bool := do
  call (.glfwInit answer)
  return answer

/-- GLFW: `glfwCreateWindow(width, height, title, nullptr, nullptr)`; the two
last arguments are always `nullptr` and are not recorded. A new window has its
close flag clear. -/
def glfwCreateWindow (width height : Int) (title : String) (answer : Option Nat) :
    Exec (Option Nat) := do
  call (.glfwCreateWindow width height title answer)
  modifyApp fun s => { s with shouldClose := false }
  return answer

/-- GLFW: `glfwWindowShouldClose(window)` reads the close flag. -/
def glfwWindowShouldClose : Exec Bool := do
  let s ← getApp
  call (.glfwWindowShouldClose s.window s.shouldClose)
  return s.shouldClose

/-- GLFW: `glfwSetWindowShouldClose(window, value)` writes the close flag. -/
def glfwSetWindowShouldClose (value : Bool) : Exec Unit := do
  let s ← getApp
  call (.glfwSetWindowShouldClose s.window value)
  modifyApp fun s => { s with shouldClose := value }

/-- GLFW dispatches the pending callbacks one after the other. -/
def dispatchEvents : List GlfwEvent → Exec Unit
  | [] => pure ()
  | .framebufferSize w h :: es => do
      framebuffer_size_callback w h
      dispatchEvents es
  | .closeRequested :: es => do
      modifyApp fun s => { s with shouldClose := true }
      dispatchEvents es

/-- GLFW: `glfwPollEvents()` processes the pending events. -/
def glfwPollEvents (events : List GlfwEvent) : Exec Unit := do
  call .glfwPollEvents
  dispatchEvents events

/-- GLFW: `glfwGetFramebufferSize(window, &windowWidth, &windowHeight)` writes
the reported size through both pointers. -/
def glfwGetFramebufferSize (answer : Int × Int) : Exec Unit := do
  let s ← getApp
  call (.glfwGetFramebufferSize s.window answer.1 answer.2)
  modifyApp fun s => { s with windowWidth := answer.1, windowHeight := answer.2 }

/-- ImGui: `ImGui::BeginTabBar(id, flags)`. -/
def BeginTabBar (inp : FrameInput) (id : String) (flags : List String) : Exec Bool := do
  call (.BeginTabBar id flags (inp.beginTabBar id))
  return inp.beginTabBar id

/-- ImGui: `ImGui::BeginTabItem(label)`. -/
def BeginTabItem (inp : FrameInput) (label : String) : Exec Bool := do
  call (.BeginTabItem label (inp.beginTabItem label))
  return inp.beginTabItem label

/-- ImGui: `ImGui::Button(label, size)`; `none` is the default size. -/
def Button (inp : FrameInput) (label : String) (size : Option ImVec2) : Exec Bool := do
  call (.Button label size (inp.button label))
  return inp.button label

/-- The flags `ImGuiWindowFlags_NoMove | ImGuiWindowFlags_NoResize |
ImGuiWindowFlags_NoTitleBar` of both windows. -/
def fixedWindowFlags : List String :=
  ["ImGuiWindowFlags_NoMove", "ImGuiWindowFlags_NoResize", "ImGuiWindowFlags_NoTitleBar"]

/-! ## `init_gui` (gui.cpp 44-85) -/

/-- Body of `init_gui`. -/
def init_gui (env : InitEnv) : Exec Bool := do
  if !(← glfwInit env.glfwInit) then
    call (.cerr "Failed to initialize GLFW")
    return false
  call (.glfwWindowHint "GLFW_CONTEXT_VERSION_MAJOR" "3")
  call (.glfwWindowHint "GLFW_CONTEXT_VERSION_MINOR" "3")
  call (.glfwWindowHint "GLFW_OPENGL_PROFILE" "GLFW_OPENGL_CORE_PROFILE")
  let s ← getApp
  let w ← glfwCreateWindow s.windowWidth s.windowHeight "Note+" env.glfwCreateWindow
  modifyApp fun s => { s with window := w }
  let s ← getApp
  if s.window.isNone then
    call (.cerr "Failed to create window")
    call .glfwTerminate
    return false
  call (.glfwMakeContextCurrent s.window)
  call (.glfwSwapInterval 1)
  call (.glfwSetFramebufferSizeCallback s.window)
  call .IMGUI_CHECKVERSION
  call .ImGui_CreateContext
  call .ImGui_GetIO_ref
  call .ImGui_StyleColorsDark
  call (.ImGui_ImplGlfw_InitForOpenGL s.window true)
  call (.ImGui_ImplOpenGL3_Init "#version 130")
  call (.cout "GUI initialized")
  return true

/-! ## `render_gui` (gui.cpp 97-213)

The body of `render_gui` is given block by block, in source order; each block
names the lines it embeds. -/

/-- Lines 112-127 of gui.cpp: the "Home" tab of the ribbon. -/
def homeTab (inp : FrameInput) : Exec Unit := do
  if (← BeginTabItem inp "Home") then
    call .Spacing
    if (← Button inp "Toggle Sidebar" none) then
      modifyApp fun s => { s with showSidebar := !s.showSidebar }
    call .SameLine
    let _ ← Button inp "Paste" (some ⟨.ofInt 60, .ofInt 40⟩)
    call .SameLine
    let _ ← Button inp "Cut" (some ⟨.ofInt 60, .ofInt 40⟩)
    call .SameLine
    let _ ← Button inp "Copy" (some ⟨.ofInt 60, .ofInt 40⟩)
    call .EndTabItem

/-- Lines 129-135 of gui.cpp: the "Insert" tab of the ribbon. -/
def insertTab (inp : FrameInput) : Exec Unit := do
  if (← BeginTabItem inp "Insert") then
    call (.Text "Insert Options")
    let _ ← Button inp "Picture" (some ⟨.ofInt 100, .ofInt 50⟩)
    call .SameLine
    let _ ← Button inp "Table" (some ⟨.ofInt 100, .ofInt 50⟩)
    call .EndTabItem

/-- Lines 111-138 of gui.cpp: the tab bar of the ribbon. -/
def ribbonTabs (inp : FrameInput) : Exec Unit := do
  if (← BeginTabBar inp "RibbonTabs" ["ImGuiTabBarFlags_Reorderable"]) then
    homeTab inp
    insertTab inp
    call .EndTabBar

/-- Lines 105-139 of gui.cpp: the ribbon window, as wide as the viewport and
100 high. -/
def ribbonBar (inp : FrameInput) : Exec Unit := do
  call (.SetNextWindowPos ⟨.ofInt 0, .ofInt 0⟩)
  let s ← getApp
  call (.SetNextWindowSize ⟨.ofInt (castFloat s.windowWidth), .ofInt 100⟩)
  call (.Begin "Ribbon" fixedWindowFlags)
  ribbonTabs inp
  call .End

/-- Lines 163-186 of gui.cpp: the three sidebar options, with text when the
sidebar is expanded and as icons when it is slim. -/
def sidebarOptions (inp : FrameInput) : Exec Unit := do
  let s ← getApp
  if s.sidebarExpanded then
    let _ ← Button inp "📂 Open File" (some ⟨negFltMin, .ofInt 40⟩)
    let _ ← Button inp "⚙️ Settings" (some ⟨negFltMin, .ofInt 40⟩)
    if (← Button inp "❌ Exit" (some ⟨negFltMin, .ofInt 40⟩)) then
      glfwSetWindowShouldClose true
  else
    let _ ← Button inp "📂" (some ⟨negFltMin, .ofInt 40⟩)
    let _ ← Button inp "⚙️" (some ⟨negFltMin, .ofInt 40⟩)
    if (← Button inp "❌" (some ⟨negFltMin, .ofInt 40⟩)) then
      glfwSetWindowShouldClose true

/-- Lines 150-188 of gui.cpp: the body of `if (showSidebar)`. -/
def sidebar (inp : FrameInput) : Exec Unit := do
  let s ← getApp
  call (.SetColumnWidth 0 (if s.sidebarExpanded then sidebarWidth else slimSidebarWidth))
  call (.BeginChild "Sidebar" ⟨.ofInt 0, .ofInt 0⟩ true)
  call (.Text "Sidebar")
  call .Separator
  if (← Button inp (if s.sidebarExpanded then "<<" else ">>") (some ⟨negFltMin, .ofInt 0⟩)) then
    modifyApp fun s => { s with sidebarExpanded := !s.sidebarExpanded }
  call .Separator
  sidebarOptions inp
  call .EndChild

/-- Lines 192-196 of gui.cpp: the editor panel. -/
def mainContent : Exec Unit := do
  call (.BeginChild "MainContent" ⟨.ofInt 0, .ofInt 0⟩ false)
  call (.Text "Welcome to Noteplus - Document Editor")
  call (.Text "Edit your content here.")
  call .EndChild

/-- Lines 141-200 of gui.cpp: the main window below the ribbon. The height
`windowHeight - 100` is computed on `int` and then converted to `float`. -/
def mainArea (inp : FrameInput) : Exec Unit := do
  call (.SetNextWindowPos ⟨.ofInt 0, .ofInt 100⟩)
  let s ← getApp
  call (.SetNextWindowSize
    ⟨.ofInt (castFloat s.windowWidth), .ofInt (castFloat (wrapInt32 (s.windowHeight - 100)))⟩)
  call (.Begin "MainArea" fixedWindowFlags)
  call (.Columns 2 (some "MainColumns") false)
  if s.showSidebar then
    sidebar inp
  call .NextColumn
  mainContent
  call (.Columns 1 none true)
  call .End

/-- Lines 202-210 of gui.cpp: finalize the frame, refresh the stored size,
clear, draw and present. -/
def presentFrame (inp : FrameInput) : Exec Unit := do
  call .ImGui_Render
  glfwGetFramebufferSize inp.framebufferSize
  let s ← getApp
  call (.glViewport 0 0 s.windowWidth s.windowHeight)
  call (.glClearColor (.sym "0.45f") (.sym "0.55f") (.sym "0.60f") (.sym "1.00f"))
  call (.glClear "GL_COLOR_BUFFER_BIT")
  call .ImGui_GetDrawData
  call .ImGui_ImplOpenGL3_RenderDrawData
  call (.glfwSwapBuffers s.window)

/-- Body of `render_gui`. -/
def render_gui (inp : FrameInput) : Exec Bool := do
  if (← glfwWindowShouldClose) then
    return false
  glfwPollEvents inp.events
  call .ImGui_ImplOpenGL3_NewFrame
  call .ImGui_ImplGlfw_NewFrame
  call .ImGui_NewFrame
  ribbonBar inp
  mainArea inp
  presentFrame inp
  return true

/-! ## `cleanup_gui` (gui.cpp 218-227) -/

/-- Body of `cleanup_gui`. -/
def cleanup_gui : Exec Unit := do
  call .ImGui_ImplOpenGL3_Shutdown
  call .ImGui_ImplGlfw_Shutdown
  call .ImGui_DestroyContext
  let s ← getApp
  call (.glfwDestroyWindow s.window)
  call .glfwTerminate
  call (.cout "GUI cleaned up")

/-! ## `main` (main.cpp 3-15) -/

/-- One call made by `main`, with the library calls made inside it and its
result. -/
inductive MainCall where
  | init_gui (trace : List Call) (result : Bool)
  | render_gui (trace : List Call) (result : Bool)
  | cleanup_gui (trace : List Call)

/-- What the libraries answer during a whole run: during `init_gui`, and
during the `k`-th call of `render_gui` (counted from 0). -/
structure RunEnv where
  init : InitEnv
  frames : Nat → FrameInput

/-- The loop `while (render_gui()) {}` from its `k`-th iteration on, with at
most `fuel` calls of `render_gui`: the statics when the loop is left and the
calls made, or `none` if the loop has not been left after `fuel` calls. -/
def renderLoop (frames : Nat → FrameInput) : Nat → Nat → App → Option (App × List MainCall)
  | 0, _, _ => none
  | fuel + 1, k, s =>
    let r := render_gui (frames k) s
    if r.result then
      match renderLoop frames fuel (k + 1) r.state with
      | none => none
      | some (s1, calls) => some (s1, MainCall.render_gui r.trace true :: calls)
    else
      some (r.state, [MainCall.render_gui r.trace false])

/-- Body of `main`: the returned value and the calls made, or `none` if the
loop is still running after `fuel` frames. -/
def main (env : RunEnv) (fuel : Nat) : Option (Int × List MainCall) :=
  let i := init_gui env.init App.initial
  if !i.result then
    some (-1, [MainCall.init_gui i.trace false])
  else
    match renderLoop env.frames fuel 0 i.state with
    | none => none
    | some (s, calls) =>
      let c := cleanup_gui s
      some (0, [MainCall.init_gui i.trace true] ++ calls ++ [MainCall.cleanup_gui c.trace])

/-- Is this a call of `render_gui`. -/
def MainCall.isRender : MainCall → Bool
  | .render_gui _ _ => true
  | _ => false

/-- Is this a call of `cleanup_gui`. -/
def MainCall.isCleanup : MainCall → Bool
  | .cleanup_gui _ => true
  | _ => false

/-- The statics after `n` calls of `render_gui`, the first of them being the
`k`-th call of the run, entered with statics `s`. -/
def stateAfterFrames (frames : Nat → FrameInput) : Nat → App → Nat → App
  | _, s, 0 => s
  | k, s, n + 1 => stateAfterFrames frames (k + 1) (render_gui (frames k) s).state n

/-- Result of the call of `render_gui` that follows those `n` calls. -/
def frameResult (frames : Nat → FrameInput) (k : Nat) (s : App) (n : Nat) : Bool :=
  (render_gui (frames (k + n)) (stateAfterFrames frames k s n)).result

/-! ## Runs of resize notifications and frames -/

/-- One thing that happens to a running program: GLFW notifies a resize
outside of a frame, or `main` runs a frame. -/
inductive Step where
  | resize (width height : Int)
  | frame (inp : FrameInput)

/-- The statics after a sequence of steps. -/
def runSteps : App → List Step → App
  | s, [] => s
  | s, .resize w h :: rest => runSteps (framebuffer_size_callback w h s).state rest
  | s, .frame inp :: rest => runSteps (render_gui inp s).state rest

/-! ## Classes of calls -/

/-- Calls that release a resource. -/
def Call.isRelease : Call → Bool
  | .ImGui_ImplOpenGL3_Shutdown => true
  | .ImGui_ImplGlfw_Shutdown => true
  | .ImGui_DestroyContext => true
  | .glfwDestroyWindow _ => true
  | .glfwTerminate => true
  | _ => false

/-- Calls that create a window. -/
def Call.isWindowCreation : Call → Bool
  | .glfwCreateWindow _ _ _ _ => true
  | _ => false

/-- Calls into the UI library (Dear ImGui and its two bindings). -/
def Call.isImGui : Call → Bool
  | .IMGUI_CHECKVERSION => true
  | .ImGui_CreateContext => true
  | .ImGui_GetIO_ref => true
  | .ImGui_StyleColorsDark => true
  | .ImGui_ImplGlfw_InitForOpenGL _ _ => true
  | .ImGui_ImplOpenGL3_Init _ => true
  | .ImGui_ImplOpenGL3_NewFrame => true
  | .ImGui_ImplGlfw_NewFrame => true
  | .ImGui_NewFrame => true
  | .SetNextWindowPos _ => true
  | .SetNextWindowSize _ => true
  | .Begin _ _ => true
  | .End => true
  | .BeginTabBar _ _ _ => true
  | .EndTabBar => true
  | .BeginTabItem _ _ => true
  | .EndTabItem => true
  | .Spacing => true
  | .SameLine => true
  | .Separator => true
  | .Text _ => true
  | .Button _ _ _ => true
  | .Columns _ _ _ => true
  | .SetColumnWidth _ _ => true
  | .NextColumn => true
  | .BeginChild _ _ _ => true
  | .EndChild => true
  | .ImGui_Render => true
  | .ImGui_GetDrawData => true
  | .ImGui_ImplOpenGL3_RenderDrawData => true
  | .ImGui_ImplOpenGL3_Shutdown => true
  | .ImGui_ImplGlfw_Shutdown => true
  | .ImGui_DestroyContext => true
  | _ => false

/-- Calls that poll the window system for events. -/
def Call.isPoll : Call → Bool
  | .glfwPollEvents => true
  | _ => false

/-- Calls that declare a widget or a piece of the layout of the frame. -/
def Call.isWidget : Call → Bool
  | .SetNextWindowPos _ => true
  | .SetNextWindowSize _ => true
  | .Begin _ _ => true
  | .End => true
  | .BeginTabBar _ _ _ => true
  | .EndTabBar => true
  | .BeginTabItem _ _ => true
  | .EndTabItem => true
  | .Spacing => true
  | .SameLine => true
  | .Separator => true
  | .Text _ => true
  | .Button _ _ _ => true
  | .Columns _ _ _ => true
  | .SetColumnWidth _ _ => true
  | .NextColumn => true
  | .BeginChild _ _ _ => true
  | .EndChild => true
  | _ => false

/-- Calls that draw or present: the GL calls, the submission of the draw
data, and the buffer swap. -/
def Call.isDrawOrPresent : Call → Bool
  | .glViewport _ _ _ _ => true
  | .glClearColor _ _ _ _ => true
  | .glClear _ => true
  | .ImGui_Render => true
  | .ImGui_GetDrawData => true
  | .ImGui_ImplOpenGL3_RenderDrawData => true
  | .glfwSwapBuffers _ => true
  | _ => false

/-- Labels of the buttons that reported an activation, in program order: the
actions invoked in the frame. -/
def invokedActions : List Call → List String
  | [] => []
  | .Button label _ true :: cs => label :: invokedActions cs
  | _ :: cs => invokedActions cs

/-- Was the exit action invoked: the exit button of the expanded sidebar or
the one of the slim sidebar reported an activation. -/
def exitInvoked (t : List Call) : Bool :=
  decide ("❌ Exit" ∈ invokedActions t) || decide ("❌" ∈ invokedActions t)

/-- Was the expand/collapse action invoked. -/
def expandInvoked (t : List Call) : Bool :=
  decide ("<<" ∈ invokedActions t) || decide (">>" ∈ invokedActions t)

/-- A top-level window as ImGui sees it declared: its name, and the position
and size set for it by the `SetNextWindow...` calls before its `Begin`. -/
structure WindowDecl where
  name : String
  pos : Option ImVec2
  size : Option ImVec2
  deriving DecidableEq, Repr

/-- The windows declared by a sequence of calls; `pos` and `size` are the
pending `SetNextWindowPos` and `SetNextWindowSize`, consumed by `Begin`. -/
def declaredWindowsFrom (pos size : Option ImVec2) : List Call → List WindowDecl
  | [] => []
  | .SetNextWindowPos p :: cs => declaredWindowsFrom (some p) size cs
  | .SetNextWindowSize z :: cs => declaredWindowsFrom pos (some z) cs
  | .Begin name _ :: cs => ⟨name, pos, size⟩ :: declaredWindowsFrom none none cs
  | _ :: cs => declaredWindowsFrom pos size cs

/-- The windows declared by a frame. -/
def declaredWindows (t : List Call) : List WindowDecl := declaredWindowsFrom none none t

/-- A child panel as ImGui places it: its name, the number of columns of the
layout in force when it is declared, and the column it lands in. -/
structure ChildDecl where
  id : String
  columns : Nat
  column : Nat
  deriving DecidableEq, Repr

/-- The child panels declared by a sequence of calls; `count` is the number
of columns in force (`Columns(n, ...)` sets it, a window starts with one) and
`cur` the current column (`NextColumn` moves to the next one, cyclically). -/
def childPanelsFrom (count cur : Nat) : List Call → List ChildDecl
  | [] => []
  | .Begin _ _ :: cs => childPanelsFrom 1 0 cs
  | .Columns n _ _ :: cs => childPanelsFrom n 0 cs
  | .NextColumn :: cs => childPanelsFrom count ((cur + 1) % count) cs
  | .BeginChild id _ _ :: cs => ⟨id, count, cur⟩ :: childPanelsFrom count cur cs
  | _ :: cs => childPanelsFrom count cur cs

/-- The child panels declared by a frame. -/
def childPanels (t : List Call) : List ChildDecl := childPanelsFrom 1 0 t

/-! ## What a frame does, as a function of what the libraries answer -/

/-- Did the "Toggle Sidebar" button get declared and report a click. -/
def toggled (inp : FrameInput) : Bool :=
  inp.beginTabBar "RibbonTabs" && inp.beginTabItem "Home" && inp.button "Toggle Sidebar"

/-- The label, if the button with this label reports a click. -/
def clicked (inp : FrameInput) (label : String) : List String :=
  if inp.button label then [label] else []

/-- The actions that the ribbon invokes. -/
def ribbonActions (inp : FrameInput) : List String :=
  if inp.beginTabBar "RibbonTabs" then
    (if inp.beginTabItem "Home" then
      clicked inp "Toggle Sidebar" ++ clicked inp "Paste" ++ clicked inp "Cut" ++
        clicked inp "Copy"
     else []) ++
    (if inp.beginTabItem "Insert" then clicked inp "Picture" ++ clicked inp "Table" else [])
  else []

/-- Label of the expand/collapse button: "<<" on the expanded sidebar, ">>"
on the slim one. -/
def expandLabel (expanded : Bool) : String := if expanded then "<<" else ">>"

/-- Label of the exit button: with text on the expanded sidebar, icon only on
the slim one. -/
def exitLabel (expanded : Bool) : String := if expanded then "❌ Exit" else "❌"

/-- The expansion flag after the sidebar block entered with flag `expanded`. -/
def expandedAfter (inp : FrameInput) (expanded : Bool) : Bool :=
  if inp.button (expandLabel expanded) then !expanded else expanded

/-- The actions that the three sidebar options invoke. -/
def optionActions (inp : FrameInput) (expanded : Bool) : List String :=
  if expanded then
    clicked inp "📂 Open File" ++ clicked inp "⚙️ Settings" ++ clicked inp "❌ Exit"
  else clicked inp "📂" ++ clicked inp "⚙️" ++ clicked inp "❌"

/-! ## Runs used as examples -/

/-- An environment in which `glfwInit` fails. -/
def failingRun : RunEnv :=
  { init := ⟨false, none⟩,
    frames := fun _ => ⟨[], fun _ => false, fun _ => false, fun _ => false, (1280, 720)⟩ }

/-- An environment in which start-up succeeds and the window system asks to
close the window while the third frame polls events. -/
def closingRun : RunEnv :=
  { init := ⟨true, some 1⟩,
    frames := fun k =>
      ⟨if k = 2 then [GlfwEvent.closeRequested] else [],
       fun _ => true, fun _ => true, fun _ => false, (1280, 720)⟩ }


/-! ## Sizes reported to the program -/

/-- Last element of a list, or `d` when the list is empty. -/
def lastOr {α : Type} (d : α) : List α → α
  | [] => d
  | a :: as => lastOr a as

/-- The sizes carried by the resize notifications among the callbacks that one
poll dispatches, in order. -/
def resizes : List GlfwEvent → List (Int × Int)
  | [] => []
  | .framebufferSize w h :: es => (w, h) :: resizes es
  | .closeRequested :: es => resizes es

/-- Visibility of the sidebar when the main area is declared: the flag the
frame was entered with, negated if "Toggle Sidebar" reported a click. -/
def shownAfter (inp : FrameInput) (s : App) : Bool :=
  if toggled inp then !s.showSidebar else s.showSidebar

/-! ## States and frames used as examples -/

/-- The statics after a successful `init_gui`: window 1, `1280 x 720`, sidebar
shown and expanded. -/
def runningState : App := { App.initial with window := some 1 }

/-- The running state with the sidebar hidden. -/
def hiddenState : App := { runningState with showSidebar := false }

/-- A frame in which nothing happens: no event, the "Home" tab is open, no
button reports a click, and the framebuffer is `1280 x 720`. -/
def idleFrame : FrameInput :=
  { events := [], beginTabBar := fun _ => true, beginTabItem := fun l => l == "Home",
    button := fun _ => false, framebufferSize := (1280, 720) }

/-- The idle frame, except that the buttons with label `l` report a click. -/
def clickFrame (l : String) : FrameInput :=
  { idleFrame with button := fun b => b == l }

/-- The idle frame, except that the user activates the place of the
expand/collapse button: "<<" and ">>" would both report a click. -/
def expandClickFrame : FrameInput :=
  { idleFrame with button := fun b => b == "<<" || b == ">>" }

/-- The sizes reported to the program during a sequence of steps, oldest
first: the size of each resize notification, outside of a frame or during the
poll of a frame, and the answer of the framebuffer-size query of each frame.
A frame that is entered with the close flag set polls and queries nothing. -/
def reports : App → List Step → List (Int × Int)
  | _, [] => []
  | s, .resize w h :: rest => (w, h) :: reports (framebuffer_size_callback w h s).state rest
  | s, .frame inp :: rest =>
    (if s.shouldClose then [] else resizes inp.events ++ [inp.framebufferSize]) ++
      reports (render_gui inp s).state rest

/-! ## Running a computation -/

/-- The monad operations are `Exec.bind` and `Exec.pure`. -/
theorem exec_bind_eq {α β : Type} (m : Exec α) (f : α → Exec β) : (m >>= f) = Exec.bind m f :=
  rfl

/-- See `exec_bind_eq`. -/
theorem exec_pure_eq {α : Type} (a : α) : (pure a : Exec α) = Exec.pure a := rfl

/-- Result of a sequence. -/
theorem exec_bind_result {α β : Type} (m : Exec α) (f : α → Exec β) (s : App) :
    (Exec.bind m f s).result = (f (m s).result (m s).state).result := rfl

/-- Statics after a sequence. -/
theorem exec_bind_state {α β : Type} (m : Exec α) (f : α → Exec β) (s : App) :
    (Exec.bind m f s).state = (f (m s).result (m s).state).state := rfl

/-- Calls of a sequence. -/
theorem exec_bind_trace {α β : Type} (m : Exec α) (f : α → Exec β) (s : App) :
    (Exec.bind m f s).trace = (m s).trace ++ (f (m s).result (m s).state).trace := rfl

/-- Running `pure`. -/
theorem exec_pure_apply {α : Type} (a : α) (s : App) : Exec.pure a s = ⟨a, s, []⟩ := rfl

/-- Running `call`. -/
theorem call_apply (c : Call) (s : App) : call c s = ⟨(), s, [c]⟩ := rfl

/-- Running `getApp`. -/
theorem getApp_apply (s : App) : getApp s = ⟨s, s, []⟩ := rfl

/-- Running `modifyApp`. -/
theorem modifyApp_apply (f : App → App) (s : App) : modifyApp f s = ⟨(), f s, []⟩ := rfl

/-- Running a conditional. -/
theorem exec_ite_apply {α : Type} (c : Prop) [Decidable c] (m1 m2 : Exec α) (s : App) :
    (if c then m1 else m2) s = if c then m1 s else m2 s := by
  split <;> rfl

/-! ## What `glfwPollEvents` can change -/

/-- Dispatching callbacks leaves the window handle alone. -/
theorem dispatchEvents_window (evs : List GlfwEvent) (s : App) :
    (dispatchEvents evs s).state.window = s.window := by
  induction evs generalizing s with
  | nil => rfl
  | cons e es ih =>
    cases e with
    | framebufferSize w h => exact ih _
    | closeRequested => exact ih _

/-- Dispatching callbacks leaves the visibility flag alone. -/
theorem dispatchEvents_showSidebar (evs : List GlfwEvent) (s : App) :
    (dispatchEvents evs s).state.showSidebar = s.showSidebar := by
  induction evs generalizing s with
  | nil => rfl
  | cons e es ih =>
    cases e with
    | framebufferSize w h => exact ih _
    | closeRequested => exact ih _

/-- Dispatching callbacks leaves the expansion flag alone. -/
theorem dispatchEvents_sidebarExpanded (evs : List GlfwEvent) (s : App) :
    (dispatchEvents evs s).state.sidebarExpanded = s.sidebarExpanded := by
  induction evs generalizing s with
  | nil => rfl
  | cons e es ih =>
    cases e with
    | framebufferSize w h => exact ih _
    | closeRequested => exact ih _

/-- Dispatching callbacks invokes no action. -/
theorem dispatchEvents_actions (evs : List GlfwEvent) (s : App) :
    invokedActions (dispatchEvents evs s).trace = [] := by
  induction evs generalizing s with
  | nil => rfl
  | cons e es ih =>
    cases e with
    | framebufferSize w h => exact ih _
    | closeRequested => exact ih _

/-- Dispatching callbacks declares no window. -/
theorem dispatchEvents_windows (evs : List GlfwEvent) (s : App) (p z : Option ImVec2)
    (rest : List Call) :
    declaredWindowsFrom p z ((dispatchEvents evs s).trace ++ rest) =
      declaredWindowsFrom p z rest := by
  induction evs generalizing s with
  | nil => rfl
  | cons e es ih =>
    cases e with
    | framebufferSize w h => exact ih _
    | closeRequested => exact ih _

/-- Dispatching callbacks declares no child panel. -/
theorem dispatchEvents_children (evs : List GlfwEvent) (s : App) (n c : Nat)
    (rest : List Call) :
    childPanelsFrom n c ((dispatchEvents evs s).trace ++ rest) =
      childPanelsFrom n c rest := by
  induction evs generalizing s with
  | nil => rfl
  | cons e es ih =>
    cases e with
    | framebufferSize w h => exact ih _
    | closeRequested => exact ih _

/-! ## Observers and concatenation -/

/-- The actions invoked by two runs of calls, one after the other. -/
theorem invokedActions_append (a b : List Call) :
    invokedActions (a ++ b) = invokedActions a ++ invokedActions b := by
  induction a with
  | nil => rfl
  | cons c cs ih =>
    cases c <;> simp [invokedActions, ih]
    rename_i l sz r
    cases r <;> simp [invokedActions, ih]

/-! ## The blocks of a frame -/

/-- The statics after the ribbon: only the visibility flag can change. -/
theorem ribbonBar_state (inp : FrameInput) (s : App) :
    (ribbonBar inp s).state =
      { s with showSidebar := if toggled inp then !s.showSidebar else s.showSidebar } := by
  rcases Bool.eq_false_or_eq_true (inp.beginTabBar "RibbonTabs") with h1 | h1 <;>
  rcases Bool.eq_false_or_eq_true (inp.beginTabItem "Home") with h2 | h2 <;>
  rcases Bool.eq_false_or_eq_true (inp.button "Toggle Sidebar") with h3 | h3 <;>
  rcases Bool.eq_false_or_eq_true (inp.beginTabItem "Insert") with h4 | h4 <;>
  simp only [ribbonBar, ribbonTabs, homeTab, insertTab, BeginTabBar, BeginTabItem, Button, bind,
    Exec.bind, pure, Exec.pure, call, getApp, modifyApp, toggled, h1, h2, h3, h4] <;> rfl

/-- The actions invoked by a button call followed by further calls. -/
theorem invokedActions_button (l : String) (z : Option ImVec2) (r : Bool) (cs : List Call) :
    invokedActions (.Button l z r :: cs) = (if r then [l] else []) ++ invokedActions cs := by
  cases r <;> rfl


/-- The actions invoked in the ribbon. -/
theorem ribbonBar_actions (inp : FrameInput) (s : App) :
    invokedActions (ribbonBar inp s).trace = ribbonActions inp := by
  rcases Bool.eq_false_or_eq_true (inp.beginTabBar "RibbonTabs") with h1 | h1 <;>
  rcases Bool.eq_false_or_eq_true (inp.beginTabItem "Home") with h2 | h2 <;>
  rcases Bool.eq_false_or_eq_true (inp.button "Toggle Sidebar") with h3 | h3 <;>
  rcases Bool.eq_false_or_eq_true (inp.beginTabItem "Insert") with h4 | h4 <;>
  simp [ribbonBar, ribbonTabs, homeTab, insertTab, BeginTabBar, BeginTabItem, Button,
    ribbonActions, clicked, h1, h2, h3, h4, exec_bind_eq, exec_pure_eq, exec_bind_trace,
    exec_bind_state, exec_bind_result, exec_pure_apply, call_apply, getApp_apply,
    modifyApp_apply, exec_ite_apply, invokedActions_button, invokedActions]

/-- The statics after the sidebar options: the close flag is set if the exit
button reports a click. -/
theorem sidebarOptions_state (inp : FrameInput) (s : App) :
    (sidebarOptions inp s).state =
      { s with shouldClose := if inp.button (exitLabel s.sidebarExpanded) then true
                              else s.shouldClose } := by
  obtain ⟨win, w, h, sh, ex, cl⟩ := s
  cases ex <;>
  rcases Bool.eq_false_or_eq_true (inp.button "❌ Exit") with h5 | h5 <;>
  rcases Bool.eq_false_or_eq_true (inp.button "❌") with h6 | h6 <;>
  simp [sidebarOptions, Button, glfwSetWindowShouldClose, exitLabel, h5, h6,
    exec_bind_eq, exec_pure_eq, exec_bind_state, exec_bind_result, exec_pure_apply, call_apply,
    getApp_apply, modifyApp_apply, exec_ite_apply]

/-- The actions invoked among the sidebar options. -/
theorem sidebarOptions_actions (inp : FrameInput) (s : App) :
    invokedActions (sidebarOptions inp s).trace = optionActions inp s.sidebarExpanded := by
  obtain ⟨win, w, h, sh, ex, cl⟩ := s
  cases ex <;>
  rcases Bool.eq_false_or_eq_true (inp.button "❌ Exit") with h5 | h5 <;>
  rcases Bool.eq_false_or_eq_true (inp.button "❌") with h6 | h6 <;>
  simp [sidebarOptions, Button, glfwSetWindowShouldClose, optionActions, clicked, h5, h6,
    exec_bind_eq, exec_pure_eq, exec_bind_trace, exec_bind_state, exec_bind_result,
    exec_pure_apply, call_apply, getApp_apply, modifyApp_apply, exec_ite_apply,
    invokedActions_button, invokedActions]

/-- The statics after the sidebar block. -/
theorem sidebar_state (inp : FrameInput) (s : App) :
    (sidebar inp s).state =
      { s with
        sidebarExpanded := expandedAfter inp s.sidebarExpanded,
        shouldClose :=
          if inp.button (exitLabel (expandedAfter inp s.sidebarExpanded)) then true
          else s.shouldClose } := by
  obtain ⟨win, w, h, sh, ex, cl⟩ := s
  cases ex <;>
  rcases Bool.eq_false_or_eq_true (inp.button "<<") with h3 | h3 <;>
  rcases Bool.eq_false_or_eq_true (inp.button ">>") with h4 | h4 <;>
  simp [sidebar, Button, sidebarOptions_state, expandedAfter, expandLabel, h3, h4,
    exec_bind_eq, exec_pure_eq, exec_bind_state, exec_bind_result, exec_pure_apply, call_apply,
    getApp_apply, modifyApp_apply, exec_ite_apply]

/-- The actions invoked in the sidebar block. -/
theorem sidebar_actions (inp : FrameInput) (s : App) :
    invokedActions (sidebar inp s).trace =
      clicked inp (expandLabel s.sidebarExpanded) ++
        optionActions inp (expandedAfter inp s.sidebarExpanded) := by
  obtain ⟨win, w, h, sh, ex, cl⟩ := s
  cases ex <;>
  rcases Bool.eq_false_or_eq_true (inp.button "<<") with h3 | h3 <;>
  rcases Bool.eq_false_or_eq_true (inp.button ">>") with h4 | h4 <;>
  simp [sidebar, Button, sidebarOptions_actions, expandedAfter, expandLabel, clicked,
    h3, h4, exec_bind_eq, exec_pure_eq, exec_bind_trace, exec_bind_state, exec_bind_result,
    exec_pure_apply, call_apply, getApp_apply, modifyApp_apply, exec_ite_apply,
    invokedActions_append, invokedActions_button, invokedActions]

/-- The statics after the main area: with the sidebar hidden nothing changes;
with the sidebar shown the expansion flag follows the expand/collapse button
and the close flag is set if the exit button reports a click. -/
theorem mainArea_state (inp : FrameInput) (s : App) :
    (mainArea inp s).state =
      if s.showSidebar then
        { s with
          sidebarExpanded := expandedAfter inp s.sidebarExpanded,
          shouldClose :=
            if inp.button (exitLabel (expandedAfter inp s.sidebarExpanded)) then true
            else s.shouldClose }
      else s := by
  obtain ⟨win, w, h, sh, ex, cl⟩ := s
  cases sh <;>
  simp [mainArea, mainContent, sidebar_state, exec_bind_eq, exec_pure_eq, exec_bind_state,
    exec_bind_result, exec_pure_apply, call_apply, getApp_apply, modifyApp_apply,
    exec_ite_apply]

/-- The actions invoked in the main area. -/
theorem mainArea_actions (inp : FrameInput) (s : App) :
    invokedActions (mainArea inp s).trace =
      if s.showSidebar then
        clicked inp (expandLabel s.sidebarExpanded) ++
          optionActions inp (expandedAfter inp s.sidebarExpanded)
      else [] := by
  obtain ⟨win, w, h, sh, ex, cl⟩ := s
  cases sh <;>
  simp only [mainArea, mainContent, sidebar_actions, exec_bind_eq, exec_pure_eq,
    exec_bind_trace, exec_bind_state, exec_bind_result, exec_pure_apply, call_apply,
    getApp_apply, modifyApp_apply, exec_ite_apply, invokedActions_append, if_true, if_false,
    Bool.false_eq_true] <;>
  simp [invokedActions]

/-! ## Lifecycle: `cleanup_gui`, `init_gui`, `main` -/

/-- C8: `cleanup_gui` makes, for every state of the statics, exactly these
calls in this order: `ImGui_ImplOpenGL3_Shutdown`, `ImGui_ImplGlfw_Shutdown`,
`ImGui::DestroyContext`, `glfwDestroyWindow(window)`, `glfwTerminate`, and
then the message on `std::cout`; its release calls are the first five, each
once. -/
theorem cleanup_gui_release_order (s : App) :
    (cleanup_gui s).trace =
      [.ImGui_ImplOpenGL3_Shutdown, .ImGui_ImplGlfw_Shutdown, .ImGui_DestroyContext,
       .glfwDestroyWindow s.window, .glfwTerminate, .cout "GUI cleaned up"] ∧
    (cleanup_gui s).trace.filter Call.isRelease =
      [.ImGui_ImplOpenGL3_Shutdown, .ImGui_ImplGlfw_Shutdown, .ImGui_DestroyContext,
       .glfwDestroyWindow s.window, .glfwTerminate] :=
  ⟨rfl, rfl⟩

/-- C2: `init_gui` returns false exactly when `glfwInit` fails or
`glfwCreateWindow` returns null. When `glfwInit` fails the only calls are
`glfwInit` and the message on `std::cerr`: no window is created and the UI
library is not called. When `glfwInit` succeeds and the window is null, the
calls are `glfwInit`, the three hints, `glfwCreateWindow`, the message, and
last `glfwTerminate`: the UI library is not called. -/
theorem init_gui_failure (env : InitEnv) (s : App) :
    ((init_gui env s).result = false ↔
      (env.glfwInit = false ∨ env.glfwCreateWindow = none)) ∧
    (env.glfwInit = false →
      (init_gui env s).trace = [.glfwInit false, .cerr "Failed to initialize GLFW"] ∧
      (init_gui env s).trace.any Call.isWindowCreation = false ∧
      (init_gui env s).trace.any Call.isImGui = false) ∧
    (env.glfwInit = true → env.glfwCreateWindow = none →
      (init_gui env s).trace =
        [.glfwInit true,
         .glfwWindowHint "GLFW_CONTEXT_VERSION_MAJOR" "3",
         .glfwWindowHint "GLFW_CONTEXT_VERSION_MINOR" "3",
         .glfwWindowHint "GLFW_OPENGL_PROFILE" "GLFW_OPENGL_CORE_PROFILE",
         .glfwCreateWindow s.windowWidth s.windowHeight "Note+" none,
         .cerr "Failed to create window",
         .glfwTerminate] ∧
      (init_gui env s).trace.any Call.isImGui = false) := by
  obtain ⟨i, w⟩ := env
  cases i with
  | false => exact ⟨by simp; rfl, fun _ => ⟨rfl, rfl, rfl⟩, fun h => by simp at h⟩
  | true =>
    cases w with
    | none => exact ⟨by simp; rfl, fun h => by simp at h, fun _ _ => ⟨rfl, rfl⟩⟩
    | some n =>
      refine ⟨?_, fun h => by simp at h, fun _ h => by simp at h⟩
      simp
      rfl

/-- Witness: both failures of start-up, from the initial statics. -/
theorem init_gui_failure_witness :
    ((init_gui ⟨false, some 1⟩ App.initial).trace.any Call.isWindowCreation = false ∧
      (init_gui ⟨false, some 1⟩ App.initial).trace.any Call.isImGui = false) ∧
    (init_gui ⟨true, none⟩ App.initial).trace.any Call.isImGui = false :=
  ⟨((init_gui_failure ⟨false, some 1⟩ App.initial).2.1 rfl).2,
   ((init_gui_failure ⟨true, none⟩ App.initial).2.2 rfl rfl).2⟩

/-- A frame entered with the close flag set: `render_gui` only reads the flag. -/
theorem render_gui_closed (inp : FrameInput) (s : App) (h : s.shouldClose = true) :
    render_gui inp s = ⟨false, s, [.glfwWindowShouldClose s.window true]⟩ := by
  simp [render_gui, glfwWindowShouldClose, bind, Exec.bind, getApp, call, h, pure, Exec.pure]

/-- The statics after the frame and the calls of the frame, for a frame that
is entered with the close flag clear: poll, new frame, ribbon, main area,
present. -/
theorem render_gui_open (inp : FrameInput) (s : App) (h : s.shouldClose = false) :
    render_gui inp s =
      ⟨true,
       (presentFrame inp (mainArea inp (ribbonBar inp
          (dispatchEvents inp.events s).state).state).state).state,
       [.glfwWindowShouldClose s.window false, .glfwPollEvents] ++
        ((dispatchEvents inp.events s).trace ++
         ([.ImGui_ImplOpenGL3_NewFrame, .ImGui_ImplGlfw_NewFrame, .ImGui_NewFrame] ++
          ((ribbonBar inp (dispatchEvents inp.events s).state).trace ++
           ((mainArea inp (ribbonBar inp (dispatchEvents inp.events s).state).state).trace ++
            (presentFrame inp (mainArea inp (ribbonBar inp
              (dispatchEvents inp.events s).state).state).state).trace))))⟩ := by
  simp [render_gui, glfwWindowShouldClose, glfwPollEvents, bind, Exec.bind, getApp, call, h,
    pure, Exec.pure]

/-- A frame entered with the close flag clear returns true. -/
theorem render_gui_open_result (inp : FrameInput) (s : App) (h : s.shouldClose = false) :
    (render_gui inp s).result = true := by
  rw [render_gui_open inp s h]

/-- The result of `render_gui` is the negation of the close flag it finds. -/
theorem render_gui_result (inp : FrameInput) (s : App) :
    (render_gui inp s).result = !s.shouldClose := by
  cases h : s.shouldClose with
  | true => rw [render_gui_closed inp s h]; rfl
  | false => rw [render_gui_open_result inp s h]; rfl

/-- The loop is left by the first call of `render_gui` that returns false:
if the call after `n` further frames returns false, then for some `m ≤ n` and
every fuel above `m` the loop makes `m` calls that return true, then one that
returns false, and stops. -/
theorem renderLoop_stops (frames : Nat → FrameInput) :
    ∀ (n k : Nat) (s : App), frameResult frames k s n = false →
      ∃ m, m ≤ n ∧ ∀ fuel, m < fuel →
        ∃ (s1 : App) (renders : List (List Call)) (last : List Call),
          renderLoop frames fuel k s =
            some (s1, renders.map (fun t => MainCall.render_gui t true) ++
              [MainCall.render_gui last false]) ∧
          renders.length = m := by
  intro n
  induction n with
  | zero =>
    intro k s h
    refine ⟨0, le_refl 0, ?_⟩
    intro fuel hf
    obtain ⟨f, rfl⟩ : ∃ f, fuel = f + 1 := ⟨fuel - 1, by omega⟩
    have h0 : (render_gui (frames k) s).result = false := by
      simpa [frameResult, stateAfterFrames] using h
    exact ⟨(render_gui (frames k) s).state, [], (render_gui (frames k) s).trace,
      by simp [renderLoop, h0], rfl⟩
  | succ n ih =>
    intro k s h
    cases h0 : (render_gui (frames k) s).result with
    | false =>
      refine ⟨0, Nat.zero_le _, ?_⟩
      intro fuel hf
      obtain ⟨f, rfl⟩ : ∃ f, fuel = f + 1 := ⟨fuel - 1, by omega⟩
      exact ⟨(render_gui (frames k) s).state, [], (render_gui (frames k) s).trace,
        by simp [renderLoop, h0], rfl⟩
    | true =>
      have h1 : frameResult frames (k + 1) (render_gui (frames k) s).state n = false := by
        have e : k + 1 + n = k + (n + 1) := by omega
        simpa [frameResult, stateAfterFrames, e] using h
      obtain ⟨m, hm, hloop⟩ := ih (k + 1) _ h1
      refine ⟨m + 1, by omega, ?_⟩
      intro fuel hf
      obtain ⟨f, rfl⟩ : ∃ f, fuel = f + 1 := ⟨fuel - 1, by omega⟩
      obtain ⟨s1, renders, last, hr, hl⟩ := hloop f (by omega)
      exact ⟨s1, (render_gui (frames k) s).trace :: renders, last,
        by simp [renderLoop, h0, hr], by simp [hl]⟩

/-- C1: `main` returns -1 exactly when `init_gui` returns false, and then its
only call is `init_gui`: neither `render_gui` nor `cleanup_gui` is called.
When `init_gui` returns true and some call of `render_gui` returns false,
`main` terminates (for every large enough fuel) with value 0, and its
calls are `init_gui`, then calls of `render_gui` that all return true, then
the call of `render_gui` that returns false, then `cleanup_gui`, once and
last. -/
theorem main_contract (env : RunEnv) :
    (∀ fuel code calls, main env fuel = some (code, calls) →
      (code = -1 ↔ (init_gui env.init App.initial).result = false)) ∧
    ((init_gui env.init App.initial).result = false →
      ∀ fuel, ∃ t, main env fuel = some (-1, [MainCall.init_gui t false]) ∧
        ([MainCall.init_gui t false].any MainCall.isRender = false ∧
         [MainCall.init_gui t false].any MainCall.isCleanup = false)) ∧
    ((init_gui env.init App.initial).result = true →
      (∃ n, frameResult env.frames 0 (init_gui env.init App.initial).state n = false) →
      ∃ m, ∀ fuel, m < fuel →
        ∃ (ti : List Call) (renders : List (List Call)) (last tc : List Call),
          main env fuel =
            some (0, [MainCall.init_gui ti true] ++
              renders.map (fun t => MainCall.render_gui t true) ++
              [MainCall.render_gui last false, MainCall.cleanup_gui tc]) ∧
          renders.length = m ∧
          (([MainCall.init_gui ti true] ++
              renders.map (fun t => MainCall.render_gui t true) ++
              [MainCall.render_gui last false]).any MainCall.isCleanup = false)) := by
  refine ⟨?_, ?_, ?_⟩
  · intro fuel code calls h
    cases hi : (init_gui env.init App.initial).result with
    | false =>
      simp [main, hi] at h
      simp [h.1]
    | true =>
      simp only [main, hi] at h
      cases hl : renderLoop env.frames fuel 0 (init_gui env.init App.initial).state with
      | none => simp [hl] at h
      | some r =>
        simp [hl] at h
        simp [← h.1]
  · intro hi fuel
    exact ⟨(init_gui env.init App.initial).trace, by simp [main, hi], rfl, rfl⟩
  · intro hi ⟨n, hn⟩
    obtain ⟨m, _, hloop⟩ := renderLoop_stops env.frames n 0 _ hn
    refine ⟨m, ?_⟩
    intro fuel hf
    obtain ⟨s1, renders, last, hr, hl⟩ := hloop fuel hf
    refine ⟨(init_gui env.init App.initial).trace, renders, last, (cleanup_gui s1).trace,
      by simp [main, hi, hr], hl, ?_⟩
    simp [MainCall.isCleanup]

/-- Witness: a run whose start-up fails, and a run whose fourth call of
`render_gui` returns false. -/
theorem main_contract_witness :
    ((-1 : Int) = -1 ↔ (init_gui failingRun.init App.initial).result = false) ∧
    (∃ t, main failingRun 0 = some (-1, [MainCall.init_gui t false]) ∧
      ([MainCall.init_gui t false].any MainCall.isRender = false ∧
       [MainCall.init_gui t false].any MainCall.isCleanup = false)) ∧
    (∃ m, ∀ fuel, m < fuel →
        ∃ (ti : List Call) (renders : List (List Call)) (last tc : List Call),
          main closingRun fuel =
            some (0, [MainCall.init_gui ti true] ++
              renders.map (fun t => MainCall.render_gui t true) ++
              [MainCall.render_gui last false, MainCall.cleanup_gui tc]) ∧
          renders.length = m ∧
          (([MainCall.init_gui ti true] ++
              renders.map (fun t => MainCall.render_gui t true) ++
              [MainCall.render_gui last false]).any MainCall.isCleanup = false)) :=
  ⟨(main_contract failingRun).1 0 (-1) _ rfl,
   (main_contract failingRun).2.1 rfl 0,
   (main_contract closingRun).2.2 rfl ⟨3, rfl⟩⟩

/-! ## A frame entered with the close flag set -/

/-- C3: when the close flag is set, `render_gui` returns false at once: its
only call is the read of the flag, so it polls no events, declares no widget,
draws and presents nothing, and every static (viewport size, both sidebar
flags) is unchanged. -/
theorem render_gui_close_flag_set (inp : FrameInput) (s : App) (h : s.shouldClose = true) :
    (render_gui inp s).result = false ∧
    (render_gui inp s).state = s ∧
    (render_gui inp s).trace = [.glfwWindowShouldClose s.window true] ∧
    (render_gui inp s).trace.any Call.isPoll = false ∧
    (render_gui inp s).trace.any Call.isWidget = false ∧
    (render_gui inp s).trace.any Call.isDrawOrPresent = false := by
  rw [render_gui_closed inp s h]
  exact ⟨rfl, rfl, rfl, rfl, rfl, rfl⟩

/-- Witness: the initial statics with the close flag set, and a frame in
which every button would report a click. -/
theorem render_gui_close_flag_set_witness :
    (render_gui ⟨[.framebufferSize 800 600], fun _ => true, fun _ => true, fun _ => true,
        (800, 600)⟩ { App.initial with shouldClose := true }).state =
      { App.initial with shouldClose := true } :=
  (render_gui_close_flag_set _ { App.initial with shouldClose := true } rfl).2.1

/-! ## A whole frame -/

/-- The statics after `presentFrame`: the stored size is the reported one. -/
theorem presentFrame_state (inp : FrameInput) (s : App) :
    (presentFrame inp s).state =
      { s with windowWidth := inp.framebufferSize.1, windowHeight := inp.framebufferSize.2 } :=
  rfl

/-- The calls of `presentFrame`. -/
theorem presentFrame_trace (inp : FrameInput) (s : App) :
    (presentFrame inp s).trace =
      [.ImGui_Render,
       .glfwGetFramebufferSize s.window inp.framebufferSize.1 inp.framebufferSize.2,
       .glViewport 0 0 inp.framebufferSize.1 inp.framebufferSize.2,
       .glClearColor (.sym "0.45f") (.sym "0.55f") (.sym "0.60f") (.sym "1.00f"),
       .glClear "GL_COLOR_BUFFER_BIT",
       .ImGui_GetDrawData,
       .ImGui_ImplOpenGL3_RenderDrawData,
       .glfwSwapBuffers s.window] :=
  rfl

/-- The stored size after a poll is the last size notified in it, or the size
stored before if the poll notified none. -/
theorem dispatchEvents_size (evs : List GlfwEvent) (s : App) :
    ((dispatchEvents evs s).state.windowWidth, (dispatchEvents evs s).state.windowHeight) =
      lastOr (s.windowWidth, s.windowHeight) (resizes evs) := by
  induction evs generalizing s with
  | nil => rfl
  | cons e es ih =>
    cases e with
    | framebufferSize w h => exact ih _
    | closeRequested => exact ih _

/-- The statics after a frame that is entered with the close flag clear. -/
theorem render_gui_open_state (inp : FrameInput) (s : App) (h : s.shouldClose = false) :
    (render_gui inp s).state =
      { window := s.window,
        windowWidth := inp.framebufferSize.1,
        windowHeight := inp.framebufferSize.2,
        showSidebar := shownAfter inp s,
        sidebarExpanded :=
          if shownAfter inp s then expandedAfter inp s.sidebarExpanded else s.sidebarExpanded,
        shouldClose :=
          if shownAfter inp s && inp.button (exitLabel (expandedAfter inp s.sidebarExpanded))
          then true else (dispatchEvents inp.events s).state.shouldClose } := by
  rw [render_gui_open inp s h]
  simp only [presentFrame_state, mainArea_state, ribbonBar_state, dispatchEvents_showSidebar,
    dispatchEvents_sidebarExpanded, dispatchEvents_window, shownAfter]
  rcases Bool.eq_false_or_eq_true (toggled inp) with h1 | h1 <;>
  rcases Bool.eq_false_or_eq_true s.showSidebar with h2 | h2 <;>
  rcases Bool.eq_false_or_eq_true
    (inp.button (exitLabel (expandedAfter inp s.sidebarExpanded))) with h3 | h3 <;>
  simp [h1, h2, h3, dispatchEvents_showSidebar, dispatchEvents_sidebarExpanded,
    dispatchEvents_window]

/-- The actions invoked in a frame that is entered with the close flag
clear. -/
theorem render_gui_open_actions (inp : FrameInput) (s : App) (h : s.shouldClose = false) :
    invokedActions (render_gui inp s).trace =
      ribbonActions inp ++
        (if shownAfter inp s then
          clicked inp (expandLabel s.sidebarExpanded) ++
            optionActions inp (expandedAfter inp s.sidebarExpanded)
         else []) := by
  rw [render_gui_open inp s h]
  simp only [invokedActions_append, dispatchEvents_actions, ribbonBar_actions, mainArea_actions,
    presentFrame_trace, ribbonBar_state, dispatchEvents_showSidebar,
    dispatchEvents_sidebarExpanded, shownAfter]
  simp [invokedActions]

/-- A frame entered with the close flag set invokes no action. -/
theorem render_gui_closed_actions (inp : FrameInput) (s : App) (h : s.shouldClose = true) :
    invokedActions (render_gui inp s).trace = [] := by
  rw [render_gui_closed inp s h]
  rfl

/-- A frame that invokes an action was entered with the close flag clear. -/
theorem shouldClose_of_actions (inp : FrameInput) (s : App)
    (h : invokedActions (render_gui inp s).trace ≠ []) : s.shouldClose = false := by
  cases hc : s.shouldClose with
  | false => rfl
  | true => exact absurd (render_gui_closed_actions inp s hc) h
/-! ## Windows and child panels of a frame -/

/-- The tab bar of the ribbon declares no window. -/
theorem ribbonTabs_windows (inp : FrameInput) (s : App) (p z : Option ImVec2)
    (rest : List Call) :
    declaredWindowsFrom p z ((ribbonTabs inp s).trace ++ rest) =
      declaredWindowsFrom p z rest := by
  rcases Bool.eq_false_or_eq_true (inp.beginTabBar "RibbonTabs") with h1 | h1 <;>
  rcases Bool.eq_false_or_eq_true (inp.beginTabItem "Home") with h2 | h2 <;>
  rcases Bool.eq_false_or_eq_true (inp.button "Toggle Sidebar") with h3 | h3 <;>
  rcases Bool.eq_false_or_eq_true (inp.beginTabItem "Insert") with h4 | h4 <;>
  simp only [ribbonTabs, homeTab, insertTab, BeginTabBar, BeginTabItem, Button,
    h1, h2, h3, h4, exec_bind_eq, exec_pure_eq, exec_bind_trace,
    exec_bind_state, exec_bind_result, exec_pure_apply, call_apply, getApp_apply,
    modifyApp_apply, exec_ite_apply, if_true, if_false, Bool.false_eq_true] <;>
  rfl

/-- The calls of the ribbon: position, size, `Begin`, the tab bar, `End`. -/
theorem ribbonBar_trace (inp : FrameInput) (s : App) :
    (ribbonBar inp s).trace =
      .SetNextWindowPos ⟨.ofInt 0, .ofInt 0⟩ ::
      .SetNextWindowSize ⟨.ofInt (castFloat s.windowWidth), .ofInt 100⟩ ::
      .Begin "Ribbon" fixedWindowFlags ::
      ((ribbonTabs inp s).trace ++ [.End]) :=
  rfl

/-- The ribbon declares one window, "Ribbon", at (0, 0), as wide as
`(float)windowWidth` and 100 high. -/
theorem ribbonBar_windows (inp : FrameInput) (s : App) (p z : Option ImVec2)
    (rest : List Call) :
    declaredWindowsFrom p z ((ribbonBar inp s).trace ++ rest) =
      ⟨"Ribbon", some ⟨.ofInt 0, .ofInt 0⟩, some ⟨.ofInt (castFloat s.windowWidth), .ofInt 100⟩⟩ ::
        declaredWindowsFrom none none rest := by
  rw [ribbonBar_trace]
  simp only [List.cons_append, List.append_assoc, List.nil_append]
  refine Eq.trans (b := _ :: declaredWindowsFrom none none
    ((ribbonTabs inp s).trace ++ Call.End :: rest)) rfl ?_
  rw [ribbonTabs_windows]
  rfl

/-- The sidebar block declares no window. -/
theorem sidebar_windows (inp : FrameInput) (s : App) (p z : Option ImVec2)
    (rest : List Call) :
    declaredWindowsFrom p z ((sidebar inp s).trace ++ rest) =
      declaredWindowsFrom p z rest := by
  obtain ⟨win, w, h, sh, ex, cl⟩ := s
  cases ex <;>
  rcases Bool.eq_false_or_eq_true (inp.button "<<") with h3 | h3 <;>
  rcases Bool.eq_false_or_eq_true (inp.button ">>") with h4 | h4 <;>
  rcases Bool.eq_false_or_eq_true (inp.button "❌ Exit") with h5 | h5 <;>
  rcases Bool.eq_false_or_eq_true (inp.button "❌") with h6 | h6 <;>
  simp only [sidebar, sidebarOptions, Button, glfwSetWindowShouldClose,
    h3, h4, h5, h6, exec_bind_eq, exec_pure_eq, exec_bind_trace,
    exec_bind_state, exec_bind_result, exec_pure_apply, call_apply, getApp_apply,
    modifyApp_apply, exec_ite_apply, if_true, if_false, Bool.false_eq_true, Bool.not_true,
    Bool.not_false] <;>
  rfl

/-- The calls of the main area: position, size, `Begin`, the two columns,
the sidebar block if the sidebar is shown, and the editor panel in the next
column. -/
theorem mainArea_trace (inp : FrameInput) (s : App) :
    (mainArea inp s).trace =
      .SetNextWindowPos ⟨.ofInt 0, .ofInt 100⟩ ::
      .SetNextWindowSize ⟨.ofInt (castFloat s.windowWidth),
        .ofInt (castFloat (wrapInt32 (s.windowHeight - 100)))⟩ ::
      .Begin "MainArea" fixedWindowFlags ::
      .Columns 2 (some "MainColumns") false ::
      ((if s.showSidebar then (sidebar inp s).trace else []) ++
        [.NextColumn,
         .BeginChild "MainContent" ⟨.ofInt 0, .ofInt 0⟩ false,
         .Text "Welcome to Noteplus - Document Editor",
         .Text "Edit your content here.",
         .EndChild,
         .Columns 1 none true,
         .End]) := by
  obtain ⟨win, w, h, sh, ex, cl⟩ := s
  cases sh <;> rfl

/-- The main area declares one window, "MainArea", at (0, 100), as wide as
`(float)windowWidth` and `(float)(windowHeight - 100)` high. -/
theorem mainArea_windows (inp : FrameInput) (s : App) (p z : Option ImVec2)
    (rest : List Call) :
    declaredWindowsFrom p z ((mainArea inp s).trace ++ rest) =
      ⟨"MainArea", some ⟨.ofInt 0, .ofInt 100⟩,
        some ⟨.ofInt (castFloat s.windowWidth),
              .ofInt (castFloat (wrapInt32 (s.windowHeight - 100)))⟩⟩ ::
        declaredWindowsFrom none none rest := by
  rw [mainArea_trace]
  simp only [List.cons_append, List.append_assoc, List.nil_append]
  cases s.showSidebar with
  | false => rfl
  | true =>
    refine Eq.trans (b := _ :: declaredWindowsFrom none none ((sidebar inp s).trace ++ _)) rfl ?_
    rw [sidebar_windows]
    rfl

/-- The calls of a frame that is entered with the close flag clear, as one
list. -/
theorem render_gui_open_trace (inp : FrameInput) (s : App) (h : s.shouldClose = false) :
    (render_gui inp s).trace =
      .glfwWindowShouldClose s.window false :: .glfwPollEvents ::
        ((dispatchEvents inp.events s).trace ++
          (.ImGui_ImplOpenGL3_NewFrame :: .ImGui_ImplGlfw_NewFrame :: .ImGui_NewFrame ::
            ((ribbonBar inp (dispatchEvents inp.events s).state).trace ++
              ((mainArea inp (ribbonBar inp (dispatchEvents inp.events s).state).state).trace ++
                (presentFrame inp (mainArea inp (ribbonBar inp
                  (dispatchEvents inp.events s).state).state).state).trace)))) := by
  rw [render_gui_open inp s h]
  rfl

/-- The windows of a frame that is entered with the close flag clear: the
ribbon and the main area, sized from the size stored after the poll. -/
theorem render_gui_open_windows (inp : FrameInput) (s : App) (h : s.shouldClose = false) :
    declaredWindows (render_gui inp s).trace =
      [⟨"Ribbon", some ⟨.ofInt 0, .ofInt 0⟩,
          some ⟨.ofInt (castFloat (dispatchEvents inp.events s).state.windowWidth), .ofInt 100⟩⟩,
       ⟨"MainArea", some ⟨.ofInt 0, .ofInt 100⟩,
          some ⟨.ofInt (castFloat (dispatchEvents inp.events s).state.windowWidth),
                .ofInt (castFloat (wrapInt32
                  ((dispatchEvents inp.events s).state.windowHeight - 100)))⟩⟩] := by
  rw [render_gui_open_trace inp s h]
  refine Eq.trans (b := declaredWindowsFrom none none ((dispatchEvents inp.events s).trace ++ _))
    rfl ?_
  rw [dispatchEvents_windows]
  refine Eq.trans (b := declaredWindowsFrom none none
    ((ribbonBar inp (dispatchEvents inp.events s).state).trace ++ _)) rfl ?_
  rw [ribbonBar_windows, mainArea_windows, ribbonBar_state]
  rfl

/-- The tab bar of the ribbon declares no child panel and no columns. -/
theorem ribbonTabs_children (inp : FrameInput) (s : App) (n c : Nat) (rest : List Call) :
    childPanelsFrom n c ((ribbonTabs inp s).trace ++ rest) = childPanelsFrom n c rest := by
  rcases Bool.eq_false_or_eq_true (inp.beginTabBar "RibbonTabs") with h1 | h1 <;>
  rcases Bool.eq_false_or_eq_true (inp.beginTabItem "Home") with h2 | h2 <;>
  rcases Bool.eq_false_or_eq_true (inp.button "Toggle Sidebar") with h3 | h3 <;>
  rcases Bool.eq_false_or_eq_true (inp.beginTabItem "Insert") with h4 | h4 <;>
  simp only [ribbonTabs, homeTab, insertTab, BeginTabBar, BeginTabItem, Button,
    h1, h2, h3, h4, exec_bind_eq, exec_pure_eq, exec_bind_trace,
    exec_bind_state, exec_bind_result, exec_pure_apply, call_apply, getApp_apply,
    modifyApp_apply, exec_ite_apply, if_true, if_false, Bool.false_eq_true] <;>
  rfl

/-- After the ribbon window the layout is back to a single column. -/
theorem ribbonBar_children (inp : FrameInput) (s : App) (n c : Nat) (rest : List Call) :
    childPanelsFrom n c ((ribbonBar inp s).trace ++ rest) = childPanelsFrom 1 0 rest := by
  rw [ribbonBar_trace]
  simp only [List.cons_append, List.append_assoc, List.nil_append]
  refine Eq.trans (b := childPanelsFrom 1 0 ((ribbonTabs inp s).trace ++ Call.End :: rest))
    rfl ?_
  rw [ribbonTabs_children]
  rfl

/-- The sidebar block declares one child panel, "Sidebar", in the current
column. -/
theorem sidebar_children (inp : FrameInput) (s : App) (n c : Nat) (rest : List Call) :
    childPanelsFrom n c ((sidebar inp s).trace ++ rest) =
      ⟨"Sidebar", n, c⟩ :: childPanelsFrom n c rest := by
  obtain ⟨win, w, h, sh, ex, cl⟩ := s
  cases ex <;>
  rcases Bool.eq_false_or_eq_true (inp.button "<<") with h3 | h3 <;>
  rcases Bool.eq_false_or_eq_true (inp.button ">>") with h4 | h4 <;>
  rcases Bool.eq_false_or_eq_true (inp.button "❌ Exit") with h5 | h5 <;>
  rcases Bool.eq_false_or_eq_true (inp.button "❌") with h6 | h6 <;>
  simp only [sidebar, sidebarOptions, Button, glfwSetWindowShouldClose,
    h3, h4, h5, h6, exec_bind_eq, exec_pure_eq, exec_bind_trace,
    exec_bind_state, exec_bind_result, exec_pure_apply, call_apply, getApp_apply,
    modifyApp_apply, exec_ite_apply, if_true, if_false, Bool.false_eq_true, Bool.not_true,
    Bool.not_false] <;>
  rfl

/-- The main area always sets up two columns; the sidebar panel, if the
sidebar is shown, is in the first and the editor panel is in the second. -/
theorem mainArea_children (inp : FrameInput) (s : App) (n c : Nat) (rest : List Call) :
    childPanelsFrom n c ((mainArea inp s).trace ++ rest) =
      (if s.showSidebar then [(⟨"Sidebar", 2, 0⟩ : ChildDecl)] else []) ++
        ⟨"MainContent", 2, 1⟩ :: childPanelsFrom 1 0 rest := by
  rw [mainArea_trace]
  simp only [List.cons_append, List.append_assoc, List.nil_append]
  cases s.showSidebar with
  | false => rfl
  | true =>
    refine Eq.trans (b := childPanelsFrom 2 0 ((sidebar inp s).trace ++ _)) rfl ?_
    rw [sidebar_children]
    rfl

/-- The child panels of a frame that is entered with the close flag clear. -/
theorem render_gui_open_children (inp : FrameInput) (s : App) (h : s.shouldClose = false) :
    childPanels (render_gui inp s).trace =
      (if shownAfter inp s then [(⟨"Sidebar", 2, 0⟩ : ChildDecl)] else []) ++
        [⟨"MainContent", 2, 1⟩] := by
  rw [render_gui_open_trace inp s h]
  refine Eq.trans (b := childPanelsFrom 1 0 ((dispatchEvents inp.events s).trace ++ _))
    rfl ?_
  rw [dispatchEvents_children]
  refine Eq.trans (b := childPanelsFrom 1 0
    ((ribbonBar inp (dispatchEvents inp.events s).state).trace ++ _)) rfl ?_
  rw [ribbonBar_children, mainArea_children, ribbonBar_state]
  simp only [dispatchEvents_showSidebar, shownAfter]
  rfl

/-- The main area leaves the window handle alone. -/
theorem mainArea_window (inp : FrameInput) (s : App) :
    (mainArea inp s).state.window = s.window := by
  rw [mainArea_state]
  split <;> rfl

/-- The last element of a concatenation is the last element of its second
part, when that part has one. -/
theorem getLast?_append_some {α : Type} (a b : List α) (x : α) (h : b.getLast? = some x) :
    (a ++ b).getLast? = some x := by
  simp [List.getLast?_append, h]

/-- The last call of a frame that is entered with the close flag clear is
the buffer swap. -/
theorem render_gui_open_last (inp : FrameInput) (s : App) (h : s.shouldClose = false) :
    (render_gui inp s).trace.getLast? = some (.glfwSwapBuffers s.window) := by
  have e : (render_gui inp s).trace =
      (.glfwWindowShouldClose s.window false :: .glfwPollEvents ::
        ((dispatchEvents inp.events s).trace ++
          (.ImGui_ImplOpenGL3_NewFrame :: .ImGui_ImplGlfw_NewFrame :: .ImGui_NewFrame ::
            ((ribbonBar inp (dispatchEvents inp.events s).state).trace ++
              (mainArea inp (ribbonBar inp (dispatchEvents inp.events s).state).state).trace)))) ++
        (presentFrame inp (mainArea inp (ribbonBar inp
          (dispatchEvents inp.events s).state).state).state).trace := by
    rw [render_gui_open_trace inp s h]
    simp only [List.cons_append, List.append_assoc]
  rw [e]
  apply getLast?_append_some
  rw [presentFrame_trace, mainArea_window, ribbonBar_state]
  simp only [dispatchEvents_window]
  rfl

/-! ## Which actions a frame invokes -/

/-- Membership in `clicked`. -/
theorem mem_clicked (inp : FrameInput) (l x : String) :
    x ∈ clicked inp l ↔ inp.button l = true ∧ x = l := by
  unfold clicked
  split <;> simp_all

/-- The labels of the ribbon. -/
theorem mem_ribbonActions (inp : FrameInput) (x : String) (h : x ∈ ribbonActions inp) :
    x = "Toggle Sidebar" ∨ x = "Paste" ∨ x = "Cut" ∨ x = "Copy" ∨ x = "Picture" ∨
      x = "Table" := by
  unfold ribbonActions at h
  split at h
  · simp only [List.mem_append] at h
    rcases h with h | h
    · split at h
      · simp only [List.mem_append, mem_clicked] at h
        tauto
      · simp at h
    · split at h
      · simp only [List.mem_append, mem_clicked] at h
        tauto
      · simp at h
  · simp at h

/-- The action "Toggle Sidebar" is invoked in the ribbon exactly when its button is
declared and reports a click. -/
theorem toggle_mem_ribbonActions (inp : FrameInput) :
    "Toggle Sidebar" ∈ ribbonActions inp ↔ toggled inp = true := by
  unfold ribbonActions toggled
  rcases Bool.eq_false_or_eq_true (inp.beginTabBar "RibbonTabs") with h1 | h1 <;>
  rcases Bool.eq_false_or_eq_true (inp.beginTabItem "Home") with h2 | h2 <;>
  rcases Bool.eq_false_or_eq_true (inp.beginTabItem "Insert") with h4 | h4 <;>
  simp [h1, h2, h4, mem_clicked]

/-- The labels of the sidebar options. -/
theorem mem_optionActions (inp : FrameInput) (e : Bool) (x : String) :
    x ∈ optionActions inp e ↔
      (e = true ∧ ((inp.button "📂 Open File" = true ∧ x = "📂 Open File") ∨
        (inp.button "⚙️ Settings" = true ∧ x = "⚙️ Settings") ∨
        (inp.button "❌ Exit" = true ∧ x = "❌ Exit"))) ∨
      (e = false ∧ ((inp.button "📂" = true ∧ x = "📂") ∨
        (inp.button "⚙️" = true ∧ x = "⚙️") ∨
        (inp.button "❌" = true ∧ x = "❌"))) := by
  cases e <;> simp [optionActions, mem_clicked, or_assoc]

/-- The exit action is invoked in a frame exactly when the sidebar is shown
and the exit button of its current form reports a click. -/
theorem exitInvoked_open (inp : FrameInput) (s : App) (h : s.shouldClose = false) :
    exitInvoked (render_gui inp s).trace =
      (shownAfter inp s && inp.button (exitLabel (expandedAfter inp s.sidebarExpanded))) := by
  rw [Bool.eq_iff_iff]
  have r1 : "❌ Exit" ∉ ribbonActions inp := fun hm => by
    have := mem_ribbonActions inp _ hm
    simp at this
  have r2 : "❌" ∉ ribbonActions inp := fun hm => by
    have := mem_ribbonActions inp _ hm
    simp at this
  simp only [exitInvoked, render_gui_open_actions inp s h, Bool.or_eq_true, Bool.and_eq_true,
    decide_eq_true_eq, List.mem_append, r1, r2, false_or]
  cases shownAfter inp s
  · simp
  · simp only [if_true, List.mem_append, mem_clicked, mem_optionActions]
    cases expandedAfter inp s.sidebarExpanded <;> cases s.sidebarExpanded <;>
      simp [exitLabel, expandLabel]

/-- The expand/collapse action is invoked in a frame exactly when the sidebar
is shown and the expand/collapse button reports a click. -/
theorem expandInvoked_open (inp : FrameInput) (s : App) (h : s.shouldClose = false) :
    expandInvoked (render_gui inp s).trace =
      (shownAfter inp s && inp.button (expandLabel s.sidebarExpanded)) := by
  rw [Bool.eq_iff_iff]
  have r1 : "<<" ∉ ribbonActions inp := fun hm => by
    have := mem_ribbonActions inp _ hm
    simp at this
  have r2 : ">>" ∉ ribbonActions inp := fun hm => by
    have := mem_ribbonActions inp _ hm
    simp at this
  simp only [expandInvoked, render_gui_open_actions inp s h, Bool.or_eq_true, Bool.and_eq_true,
    decide_eq_true_eq, List.mem_append, r1, r2, false_or]
  cases shownAfter inp s
  · simp
  · simp only [if_true, List.mem_append, mem_clicked, mem_optionActions]
    cases expandedAfter inp s.sidebarExpanded <;> cases s.sidebarExpanded <;>
      simp [expandLabel]

/-- The action "Toggle Sidebar" is invoked in a frame exactly when its button is
declared and reports a click. -/
theorem toggle_mem_open (inp : FrameInput) (s : App) (h : s.shouldClose = false) :
    "Toggle Sidebar" ∈ invokedActions (render_gui inp s).trace ↔ toggled inp = true := by
  rw [render_gui_open_actions inp s h, List.mem_append, toggle_mem_ribbonActions]
  constructor
  · rintro (h1 | h1)
    · exact h1
    · exfalso
      split at h1
      · simp only [List.mem_append, mem_clicked, mem_optionActions] at h1
        revert h1
        cases s.sidebarExpanded <;> simp [expandLabel]
      · simp at h1
  · exact Or.inl

/-! ## The exit action -/

/-- C4: in a frame entered with the sidebar visible and the close flag clear,
if the exit action is invoked (the exit button of the expanded or of the slim
sidebar reports a click), then `render_gui` still returns true, the frame is
complete (both windows are declared and the last call is the buffer swap), and
the close flag is set afterwards; the next call of `render_gui`, whatever the
libraries answer, returns false and declares no widget. -/
theorem exit_action_stops_next_frame (inp next : FrameInput) (s : App)
    (_hs : s.showSidebar = true) (hc : s.shouldClose = false)
    (hx : exitInvoked (render_gui inp s).trace = true) :
    (render_gui inp s).result = true ∧
    (render_gui inp s).state.shouldClose = true ∧
    (declaredWindows (render_gui inp s).trace).map WindowDecl.name = ["Ribbon", "MainArea"] ∧
    (render_gui inp s).trace.getLast? = some (.glfwSwapBuffers s.window) ∧
    (render_gui next (render_gui inp s).state).result = false ∧
    (render_gui next (render_gui inp s).state).trace.any Call.isWidget = false := by
  have hclose : (render_gui inp s).state.shouldClose = true := by
    rw [exitInvoked_open inp s hc] at hx
    rw [render_gui_open_state inp s hc]
    simp only [hx, if_true]
  refine ⟨render_gui_open_result inp s hc, hclose, ?_, render_gui_open_last inp s hc, ?_, ?_⟩
  · rw [render_gui_open_windows inp s hc]
    rfl
  · rw [render_gui_closed next _ hclose]
  · rw [render_gui_closed next _ hclose]
    rfl

/-- Witness: the exit button of the expanded sidebar reports a click in the
running state. -/
theorem exit_action_stops_next_frame_witness :
    (render_gui (clickFrame "❌ Exit") runningState).state.shouldClose = true ∧
    (render_gui idleFrame (render_gui (clickFrame "❌ Exit") runningState).state).result =
      false :=
  ⟨(exit_action_stops_next_frame (clickFrame "❌ Exit") idleFrame runningState rfl rfl
      (by decide)).2.1,
   (exit_action_stops_next_frame (clickFrame "❌ Exit") idleFrame runningState rfl rfl
      (by decide)).2.2.2.2.1⟩

/-! ## The two sidebar flags -/

/-- A frame in which "Toggle Sidebar" is the only action invoked negates the
visibility flag and keeps the expansion flag. -/
theorem toggle_only_frame (inp : FrameInput) (s : App)
    (h : invokedActions (render_gui inp s).trace = ["Toggle Sidebar"]) :
    (render_gui inp s).state.showSidebar = (!s.showSidebar) ∧
    (render_gui inp s).state.sidebarExpanded = s.sidebarExpanded := by
  have hc : s.shouldClose = false := shouldClose_of_actions inp s (by rw [h]; simp)
  have ht : toggled inp = true := (toggle_mem_open inp s hc).1 (by rw [h]; simp)
  have he : expandInvoked (render_gui inp s).trace = false := by
    simp [expandInvoked, h]
  rw [expandInvoked_open inp s hc] at he
  rw [render_gui_open_state inp s hc]
  refine ⟨by simp [shownAfter, ht], ?_⟩
  show (if shownAfter inp s = true then expandedAfter inp s.sidebarExpanded
    else s.sidebarExpanded) = s.sidebarExpanded
  cases hs : shownAfter inp s with
  | false => simp
  | true =>
    rw [hs, Bool.true_and] at he
    simp [expandedAfter, he]

/-- C5: for every state of the statics, a frame in which only the "Toggle
Sidebar" action is invoked negates the visibility flag and keeps the expansion
flag (also while the sidebar is hidden); after two such frames in a row both
flags have their original values. -/
theorem toggle_sidebar_twice (inp1 inp2 : FrameInput) (s : App)
    (h1 : invokedActions (render_gui inp1 s).trace = ["Toggle Sidebar"])
    (h2 : invokedActions (render_gui inp2 (render_gui inp1 s).state).trace =
      ["Toggle Sidebar"]) :
    (render_gui inp1 s).state.showSidebar = (!s.showSidebar) ∧
    (render_gui inp1 s).state.sidebarExpanded = s.sidebarExpanded ∧
    (render_gui inp2 (render_gui inp1 s).state).state.showSidebar = s.showSidebar ∧
    (render_gui inp2 (render_gui inp1 s).state).state.sidebarExpanded = s.sidebarExpanded := by
  obtain ⟨a1, b1⟩ := toggle_only_frame inp1 s h1
  obtain ⟨a2, b2⟩ := toggle_only_frame inp2 _ h2
  refine ⟨a1, b1, ?_, ?_⟩
  · rw [a2, a1, Bool.not_not]
  · rw [b2, b1]

/-- Witness: the button "Toggle Sidebar" reports a click in two frames in a
row, from the running state. -/
theorem toggle_sidebar_twice_witness :
    (render_gui (clickFrame "Toggle Sidebar") runningState).state.showSidebar = false ∧
    (render_gui (clickFrame "Toggle Sidebar") runningState).state.sidebarExpanded = true ∧
    (render_gui (clickFrame "Toggle Sidebar")
      (render_gui (clickFrame "Toggle Sidebar") runningState).state).state.showSidebar = true ∧
    (render_gui (clickFrame "Toggle Sidebar")
      (render_gui (clickFrame "Toggle Sidebar") runningState).state).state.sidebarExpanded =
        true :=
  toggle_sidebar_twice (clickFrame "Toggle Sidebar") (clickFrame "Toggle Sidebar") runningState
    (by decide) (by decide)

/-- C6 (amended): the expand/collapse action is part of the sidebar panel.
In every frame that is drawn, the expansion flag is negated when that action
is invoked and is unchanged when it is not; and when the sidebar is hidden at
the time the main area is declared, the frame declares no sidebar panel (the
editor panel is its only child panel), the action is not invoked whatever the
buttons would answer, and the expansion flag is unchanged: it keeps,
while hidden, the value that is seen when the sidebar is shown again. -/
theorem expand_action_gated (inp : FrameInput) (s : App) (hc : s.shouldClose = false) :
    (expandInvoked (render_gui inp s).trace = true →
      (render_gui inp s).state.sidebarExpanded = !s.sidebarExpanded) ∧
    (expandInvoked (render_gui inp s).trace = false →
      (render_gui inp s).state.sidebarExpanded = s.sidebarExpanded) ∧
    ((render_gui inp s).state.showSidebar = false →
      childPanels (render_gui inp s).trace = [⟨"MainContent", 2, 1⟩] ∧
      expandInvoked (render_gui inp s).trace = false ∧
      (render_gui inp s).state.sidebarExpanded = s.sidebarExpanded) := by
  rw [expandInvoked_open inp s hc, render_gui_open_children inp s hc,
    render_gui_open_state inp s hc]
  cases hs : shownAfter inp s <;> cases hb : inp.button (expandLabel s.sidebarExpanded) <;>
    simp [expandedAfter, hb]

/-- Witness: with the sidebar shown a click on "<<" collapses it; with the
sidebar hidden, a click where the expand/collapse button would be leaves the
expansion flag as it is. -/
theorem expand_action_gated_witness :
    (render_gui (clickFrame "<<") runningState).state.sidebarExpanded = (!true) ∧
    (render_gui idleFrame runningState).state.sidebarExpanded = true ∧
    childPanels (render_gui expandClickFrame hiddenState).trace = [⟨"MainContent", 2, 1⟩] ∧
    expandInvoked (render_gui expandClickFrame hiddenState).trace = false ∧
    (render_gui expandClickFrame hiddenState).state.sidebarExpanded = true :=
  ⟨(expand_action_gated (clickFrame "<<") runningState rfl).1 (by decide),
   (expand_action_gated idleFrame runningState rfl).2.1 (by decide),
   (expand_action_gated expandClickFrame hiddenState rfl).2.2 rfl⟩

/-- Counterexample: with the sidebar hidden, a frame in which the
expand/collapse button would report a click does not negate the expansion
flag. -/
theorem expand_while_hidden_counterexample :
    ¬ (∀ (inp : FrameInput) (s : App), s.showSidebar = false → s.shouldClose = false →
        inp.button (expandLabel s.sidebarExpanded) = true →
        (render_gui inp s).state.sidebarExpanded = !s.sidebarExpanded) := by
  intro h
  exact absurd (h expandClickFrame hiddenState rfl rfl rfl) (by decide)

/-! ## Layout of the main area -/

/-- C9 (amended): in every frame that is drawn the main area is set up with
two columns, whether the sidebar is shown or not. When the visibility flag is
true the sidebar panel is declared in the first column and the editor panel
in the second; when it is false no sidebar panel is declared and the editor
panel is still in the second of two columns. -/
theorem main_area_two_columns (inp : FrameInput) (s : App) (hc : s.shouldClose = false) :
    childPanels (render_gui inp s).trace =
      (if (render_gui inp s).state.showSidebar then [(⟨"Sidebar", 2, 0⟩ : ChildDecl)] else []) ++
        [⟨"MainContent", 2, 1⟩] := by
  rw [render_gui_open_children inp s hc, render_gui_open_state inp s hc]

/-- Witness: an idle frame with the sidebar hidden. -/
theorem main_area_two_columns_witness :
    childPanels (render_gui idleFrame hiddenState).trace = [⟨"MainContent", 2, 1⟩] :=
  main_area_two_columns idleFrame hiddenState rfl

/-- Counterexample: with the sidebar hidden, the editor panel of a drawn
frame is not in a single-column layout. -/
theorem single_panel_counterexample :
    ¬ (∀ (inp : FrameInput) (s : App), s.shouldClose = false →
        (render_gui inp s).state.showSidebar = false →
        ∀ c ∈ childPanels (render_gui inp s).trace, c.columns = 1) := by
  intro h
  exact absurd (h idleFrame hiddenState rfl rfl ⟨"MainContent", 2, 1⟩ (by decide)) (by decide)

/-! ## Resize notifications -/

/-- The resize callback stores its two arguments and leaves the rest of the
statics alone. -/
theorem framebuffer_size_callback_state (w h : Int) (s : App) :
    (framebuffer_size_callback w h s).state = { s with windowWidth := w, windowHeight := h } :=
  rfl

/-- The last element of a list that ends with `x`. -/
theorem lastOr_append_singleton {α : Type} (d x : α) (l : List α) :
    lastOr d (l ++ [x]) = x := by
  induction l generalizing d with
  | nil => rfl
  | cons a as ih => exact ih a

/-- The last element of a concatenation. -/
theorem lastOr_append {α : Type} (d : α) (l1 l2 : List α) :
    lastOr d (l1 ++ l2) = lastOr (lastOr d l1) l2 := by
  induction l1 generalizing d with
  | nil => rfl
  | cons a as ih => exact ih a

/-- The last element of a list is the default or one of its elements. -/
theorem lastOr_mem {α : Type} (d : α) (l : List α) : lastOr d l = d ∨ lastOr d l ∈ l := by
  induction l generalizing d with
  | nil => exact Or.inl rfl
  | cons a as ih =>
    rcases ih a with h | h
    · exact Or.inr (by simp [lastOr, h])
    · exact Or.inr (by simp [lastOr, h])

/-- On integers of magnitude at most `2^24` the conversion to `float` is
exact. -/
theorem castFloat_exact (n : Int) (h : n.natAbs ≤ floatExactBound) : castFloat n = n := by
  simp [castFloat, h]

/-- An `int` result of magnitude at most `2^24` does not wrap. -/
theorem wrapInt32_exact (n : Int) (h : n.natAbs ≤ floatExactBound) : wrapInt32 n = n := by
  unfold wrapInt32 floatExactBound at *
  omega

/-- C7 (amended): a resize notification `framebuffer_size_callback(w, h)`
stores `(w, h)`. The frame drawn from a stored size `(w, h)` (the size stored
when the frame is entered if its poll notifies no resize, or the last size
notified during its poll) declares the ribbon at (0, 0) with width
`(float)w` and height 100 and the main area at (0, 100) with width `(float)w`
and height `(float)(h - 100)`, the subtraction being done on `int`. When
`|w| ≤ 2^24` and `|h - 100| ≤ 2^24` these are exactly `w` and `h - 100`. -/
theorem resize_then_frame (w h : Int) (inp : FrameInput) (s : App)
    (hc : s.shouldClose = false) :
    ((framebuffer_size_callback w h s).state.windowWidth = w ∧
     (framebuffer_size_callback w h s).state.windowHeight = h) ∧
    (lastOr (s.windowWidth, s.windowHeight) (resizes inp.events) = (w, h) →
      declaredWindows (render_gui inp s).trace =
        [⟨"Ribbon", some ⟨.ofInt 0, .ofInt 0⟩, some ⟨.ofInt (castFloat w), .ofInt 100⟩⟩,
         ⟨"MainArea", some ⟨.ofInt 0, .ofInt 100⟩,
           some ⟨.ofInt (castFloat w), .ofInt (castFloat (wrapInt32 (h - 100)))⟩⟩]) ∧
    (resizes inp.events = [] → w.natAbs ≤ floatExactBound →
      (h - 100).natAbs ≤ floatExactBound →
      declaredWindows (render_gui inp (framebuffer_size_callback w h s).state).trace =
        [⟨"Ribbon", some ⟨.ofInt 0, .ofInt 0⟩, some ⟨.ofInt w, .ofInt 100⟩⟩,
         ⟨"MainArea", some ⟨.ofInt 0, .ofInt 100⟩, some ⟨.ofInt w, .ofInt (h - 100)⟩⟩]) := by
  have key : ∀ (s1 : App), s1.shouldClose = false →
      lastOr (s1.windowWidth, s1.windowHeight) (resizes inp.events) = (w, h) →
      declaredWindows (render_gui inp s1).trace =
        [⟨"Ribbon", some ⟨.ofInt 0, .ofInt 0⟩, some ⟨.ofInt (castFloat w), .ofInt 100⟩⟩,
         ⟨"MainArea", some ⟨.ofInt 0, .ofInt 100⟩,
           some ⟨.ofInt (castFloat w), .ofInt (castFloat (wrapInt32 (h - 100)))⟩⟩] := by
    intro s1 h1 hl
    have hd := dispatchEvents_size inp.events s1
    rw [hl] at hd
    injection hd with hw hh
    rw [render_gui_open_windows inp s1 h1, hw, hh]
  refine ⟨⟨rfl, rfl⟩, key s hc, ?_⟩
  intro he hw hh
  rw [key (framebuffer_size_callback w h s).state hc (by rw [he]; rfl),
    castFloat_exact w hw, wrapInt32_exact _ hh, castFloat_exact _ hh]

/-- Witness: a resize to `800 x 600` notified during the poll of a frame, and
one notified before an idle frame. -/
theorem resize_then_frame_witness :
    declaredWindows (render_gui { idleFrame with events := [.framebufferSize 800 600] }
        runningState).trace =
      [⟨"Ribbon", some ⟨.ofInt 0, .ofInt 0⟩, some ⟨.ofInt (castFloat 800), .ofInt 100⟩⟩,
       ⟨"MainArea", some ⟨.ofInt 0, .ofInt 100⟩,
         some ⟨.ofInt (castFloat 800), .ofInt (castFloat (wrapInt32 (600 - 100)))⟩⟩] ∧
    declaredWindows (render_gui idleFrame (framebuffer_size_callback 800 600
        runningState).state).trace =
      [⟨"Ribbon", some ⟨.ofInt 0, .ofInt 0⟩, some ⟨.ofInt 800, .ofInt 100⟩⟩,
       ⟨"MainArea", some ⟨.ofInt 0, .ofInt 100⟩, some ⟨.ofInt 800, .ofInt (600 - 100)⟩⟩] :=
  ⟨(resize_then_frame 800 600 { idleFrame with events := [.framebufferSize 800 600] }
      runningState rfl).2.1 rfl,
   (resize_then_frame 800 600 idleFrame runningState rfl).2.2 rfl (by decide) (by decide)⟩

/-- Counterexample: after a resize notification of width `2^24 + 1`,
which is an `int` but not a `float`, the ribbon is not declared with that
width. -/
theorem resize_exact_counterexample :
    ¬ (∀ (w h : Int) (inp : FrameInput) (s : App),
        INT_MIN ≤ w → w ≤ INT_MAX → INT_MIN ≤ h → h ≤ INT_MAX →
        s.shouldClose = false → resizes inp.events = [] →
        declaredWindows (render_gui inp (framebuffer_size_callback w h s).state).trace =
          [⟨"Ribbon", some ⟨.ofInt 0, .ofInt 0⟩, some ⟨.ofInt w, .ofInt 100⟩⟩,
           ⟨"MainArea", some ⟨.ofInt 0, .ofInt 100⟩, some ⟨.ofInt w, .ofInt (h - 100)⟩⟩]) := by
  intro h
  exact absurd (h 16777217 720 idleFrame runningState (by decide) (by decide) (by decide)
    (by decide) rfl rfl) (by decide)

/-! ## The stored viewport size over a run -/

/-- The stored size after a frame, whatever the close flag: the answer of the
query if the frame is drawn, the size stored before if it is not. -/
theorem render_gui_size (inp : FrameInput) (s : App) :
    ((render_gui inp s).state.windowWidth, (render_gui inp s).state.windowHeight) =
      lastOr (s.windowWidth, s.windowHeight)
        (if s.shouldClose then [] else resizes inp.events ++ [inp.framebufferSize]) := by
  cases hc : s.shouldClose with
  | true => rw [render_gui_closed inp s hc]; rfl
  | false =>
    rw [render_gui_open_state inp s hc]
    simp [lastOr_append_singleton]

/-- The stored size after a run is the last size reported during it, or the
size stored at its start if none was reported. -/
theorem runSteps_size (steps : List Step) (s : App) :
    ((runSteps s steps).windowWidth, (runSteps s steps).windowHeight) =
      lastOr (s.windowWidth, s.windowHeight) (reports s steps) := by
  induction steps generalizing s with
  | nil => rfl
  | cons st rest ih =>
    cases st with
    | resize w h => exact ih _
    | frame inp =>
      show ((runSteps (render_gui inp s).state rest).windowWidth,
        (runSteps (render_gui inp s).state rest).windowHeight) = _
      rw [ih, render_gui_size]
      simp only [reports, lastOr_append]

/-- C10 (amended): in every state reachable from the initial statics
(`1280 x 720`) by resize notifications and frames, the stored width and
height are those of the most recent resize notification or framebuffer-size
query, or `1280 x 720` if there was none. They are stored as reported: they
are both non-negative provided every reported width and height is. -/
theorem stored_size_is_last_report (steps : List Step) :
    ((runSteps App.initial steps).windowWidth, (runSteps App.initial steps).windowHeight) =
      lastOr (1280, 720) (reports App.initial steps) ∧
    ((∀ r ∈ reports App.initial steps, 0 ≤ r.1 ∧ 0 ≤ r.2) →
      0 ≤ (runSteps App.initial steps).windowWidth ∧
      0 ≤ (runSteps App.initial steps).windowHeight) := by
  have e := runSteps_size steps App.initial
  refine ⟨e, ?_⟩
  intro hr
  have hw : (runSteps App.initial steps).windowWidth =
      (lastOr ((1280 : Int), (720 : Int)) (reports App.initial steps)).1 := by
    have := congrArg Prod.fst e
    exact this
  have hh : (runSteps App.initial steps).windowHeight =
      (lastOr ((1280 : Int), (720 : Int)) (reports App.initial steps)).2 := by
    have := congrArg Prod.snd e
    exact this
  rw [hw, hh]
  rcases lastOr_mem ((1280 : Int), (720 : Int)) (reports App.initial steps) with h | h
  · rw [h]
    exact ⟨by decide, by decide⟩
  · exact hr _ h

/-- Witness: a resize to `800 x 600`, then a frame whose query reports
`640 x 480`. -/
theorem stored_size_is_last_report_witness :
    0 ≤ (runSteps App.initial
        [.resize 800 600, .frame { idleFrame with framebufferSize := (640, 480) }]).windowWidth ∧
    0 ≤ (runSteps App.initial
        [.resize 800 600, .frame { idleFrame with framebufferSize := (640, 480) }]).windowHeight :=
  (stored_size_is_last_report
    [.resize 800 600, .frame { idleFrame with framebufferSize := (640, 480) }]).2 (by decide)

/-- Counterexample: a resize notification with a negative size is
stored as it is. -/
theorem stored_size_nonneg_counterexample :
    ¬ (∀ steps : List Step,
        0 ≤ (runSteps App.initial steps).windowWidth ∧
        0 ≤ (runSteps App.initial steps).windowHeight) := by
  intro h
  exact absurd (h [.resize (-1) (-1)]).1 (by decide)
end Noteplus
